import Mathlib

/-!
Verification development for the BooklyAgent conversational-agent core:
a shallow embedding of `backend/agent/tools.py`, `backend/agent/prompts.py`
and `backend/agent/controller.py`, together with theorems settling the
frozen behavioural claims about the tool registry, the turn loop, provider
fallback, context enrichment and conversation-store trimming.

Conventions of the embedding:
* Python dictionaries of JSON-compatible tool arguments are association
  lists `Args` over a small value type `PyVal`; Python truthiness of a
  looked-up value is `truthyGet`.
* Fallible Python code (SQLAlchemy raises, `ValueError`, attribute errors)
  is modelled with `Except PyError`; a `.error` outcome is a raised,
  uncaught exception crossing the function boundary.
* Monetary amounts and ratings (Python floats used only as opaque payload
  values, never computed with) are carried as `Nat`.
* `datetime` values carry their calendar fields plus an absolute second
  count used for `timedelta` subtraction.
-/

set_option autoImplicit false

namespace Bookly

/-- A JSON-compatible Python value as it appears in tool arguments. -/
inductive PyVal where
  | vstr (s : String)
  | vint (n : Int)
  | vnone
  deriving DecidableEq, Repr

/-- Python truthiness of a `PyVal` (`""`, `0` and `None` are falsy). -/
def PyVal.truthy : PyVal → Bool
  | .vstr s => s ≠ ""
  | .vint n => n ≠ 0
  | .vnone => false

/-- `str(v)` as used when a `PyVal` is interpolated into an f-string. -/
def PyVal.toStr : PyVal → String
  | .vstr s => s
  | .vint n => toString n
  | .vnone => "None"

/-- A Python dict of tool-call arguments (insertion-ordered, unique keys). -/
abbrev Args := List (String × PyVal)

/-- `d.get(k)`: first binding of `k`, `None`-as-`none` when absent. -/
def Args.get (a : Args) (k : String) : Option PyVal :=
  (a.find? (fun p => p.1 == k)).map (fun p => p.2)

/-- `d[k] = v`: replace an existing binding in place, else append. -/
def Args.set (a : Args) (k : String) (v : PyVal) : Args :=
  if (a.find? (fun p => p.1 == k)).isSome then
    a.map (fun p => if p.1 == k then (k, v) else p)
  else
    a ++ [(k, v)]

/-- Truthiness of `d.get(k)` (missing key counts as falsy). -/
def truthyGet (a : Args) (k : String) : Bool :=
  match a.get k with
  | some v => v.truthy
  | none => false

/-- Truthiness of an optional string attribute such as `self.user_email`. -/
def optTruthy : Option String → Bool
  | some s => s ≠ ""
  | none => false

/-- Truthiness of an optional `PyVal` (a `params.get(...)` result). -/
def optValTruthy : Option PyVal → Bool
  | some v => v.truthy
  | none => false

/-- SQL equality between a parameter value and a string column. A non-string
parameter compared against a text column never matches. -/
def pvEqStr (v : PyVal) (s : String) : Bool :=
  match v with
  | .vstr t => t == s
  | _ => false

/-- A JSON value: the structured payloads tool handlers return. -/
inductive JVal where
  | s (v : String)
  | i (v : Int)
  | b (v : Bool)
  | null
  | arr (xs : List JVal)
  | obj (fields : List (String × JVal))
  deriving Repr

/-- Python truthiness of a handler result (`if result:`). -/
def jvalFalsy : JVal → Bool
  | .obj [] => true
  | .arr [] => true
  | .null => true
  | .s "" => true
  | .i 0 => true
  | .b false => true
  | _ => false

/-- An exception escaping a tool handler: SQLAlchemy's
`MultipleResultsFound`, a `ValueError`, or an `AttributeError`. -/
inductive PyError where
  | multipleResultsFound
  | valueError (msg : String)
  | attributeError (msg : String)
  deriving DecidableEq, Repr

/-- `str(e)` for an exception, as interpolated into the error details. -/
def pyErrStr : PyError → String
  | .multipleResultsFound => "Multiple rows were found when one or none was required"
  | .valueError m => m
  | .attributeError m => m

/-- `Result.scalar_one_or_none()`: `None` on no row, the row when unique,
and raises `MultipleResultsFound` on several rows. -/
def scalarOneOrNone {α : Type} (rows : List α) : Except PyError (Option α) :=
  match rows with
  | [] => .ok none
  | [x] => .ok (some x)
  | _ => .error .multipleResultsFound

/-- A `datetime` value: calendar fields plus an absolute second count used
for `timedelta` arithmetic. -/
structure DateTime where
  year : Nat
  month : Nat
  day : Nat
  hour : Nat
  minute : Nat
  second : Nat
  epochSeconds : Nat
  deriving DecidableEq, Repr

/-- `%B`: full month name. -/
def monthName : Nat → String
  | 1 => "January" | 2 => "February" | 3 => "March" | 4 => "April"
  | 5 => "May" | 6 => "June" | 7 => "July" | 8 => "August"
  | 9 => "September" | 10 => "October" | 11 => "November" | 12 => "December"
  | _ => "Unknown"

/-- Zero padding to two digits (`%d`, `%m`, `%H`, `%M`, `%S`). -/
def pad2 (n : Nat) : String :=
  if n < 10 then "0" ++ toString n else toString n

/-- Zero padding to four digits (`%Y`). -/
def pad4 (n : Nat) : String :=
  if n < 10 then "000" ++ toString n
  else if n < 100 then "00" ++ toString n
  else if n < 1000 then "0" ++ toString n
  else toString n

/-- `strftime("%B %d, %Y")`. -/
def DateTime.fmtBdY (d : DateTime) : String :=
  monthName d.month ++ " " ++ pad2 d.day ++ ", " ++ toString d.year

/-- `strftime("%B %Y")`. -/
def DateTime.fmtBY (d : DateTime) : String :=
  monthName d.month ++ " " ++ toString d.year

/-- `strftime("%Y%m%d%H%M%S")`, used to mint ticket numbers. -/
def DateTime.fmtCompact (d : DateTime) : String :=
  pad4 d.year ++ pad2 d.month ++ pad2 d.day ++ pad2 d.hour ++ pad2 d.minute ++ pad2 d.second

/-- `(a - b).days` for two datetimes (floor division of the delta). -/
def daysBetween (a b : DateTime) : Int :=
  ((a.epochSeconds : Int) - (b.epochSeconds : Int)).fdiv 86400

/-- `OrderStatus` enum of `data/models.py`. -/
inductive OrderStatus where
  | pending | processing | shipped | delivered | cancelled | returned
  deriving DecidableEq, Repr

def OrderStatus.value : OrderStatus → String
  | .pending => "pending"
  | .processing => "processing"
  | .shipped => "shipped"
  | .delivered => "delivered"
  | .cancelled => "cancelled"
  | .returned => "returned"

/-- `Genre` enum of `data/models.py`. -/
inductive Genre where
  | fiction | scifi | mystery | romance | selfHelp
  | biography | history | business | fantasy | thriller
  deriving DecidableEq, Repr

def Genre.value : Genre → String
  | .fiction => "Fiction"
  | .scifi => "Sci-Fi"
  | .mystery => "Mystery"
  | .romance => "Romance"
  | .selfHelp => "Self-Help"
  | .biography => "Biography"
  | .history => "History"
  | .business => "Business"
  | .fantasy => "Fantasy"
  | .thriller => "Thriller"

/-- `Genre(g)` for a string, with the `ValueError` outcome as `none`
(always caught with `pass` at the call sites in `tools.py`). -/
def Genre.ofString? (g : String) : Option Genre :=
  if g == "Fiction" then some .fiction
  else if g == "Sci-Fi" then some .scifi
  else if g == "Mystery" then some .mystery
  else if g == "Romance" then some .romance
  else if g == "Self-Help" then some .selfHelp
  else if g == "Biography" then some .biography
  else if g == "History" then some .history
  else if g == "Business" then some .business
  else if g == "Fantasy" then some .fantasy
  else if g == "Thriller" then some .thriller
  else none

/-- `TicketStatus` enum of `data/models.py`. -/
inductive TicketStatus where
  | open_ | inProgress | resolved | closed
  deriving DecidableEq, Repr

/-- `TicketPriority` enum of `data/models.py`. -/
inductive TicketPriority where
  | low | medium | high | urgent
  deriving DecidableEq, Repr

/-- `TicketPriority(priority)`: raises `ValueError` for any value outside
the enum, with CPython's enum error message. -/
def TicketPriority.ofPyVal (v : PyVal) : Except PyError TicketPriority :=
  match v with
  | .vstr "low" => .ok .low
  | .vstr "medium" => .ok .medium
  | .vstr "high" => .ok .high
  | .vstr "urgent" => .ok .urgent
  | .vstr s => .error (.valueError ("\x27" ++ s ++ "\x27 is not a valid TicketPriority"))
  | .vint n => .error (.valueError (toString n ++ " is not a valid TicketPriority"))
  | .vnone => .error (.valueError "None is not a valid TicketPriority")

/-- A row of the `books` table (fields the agent tools touch). -/
structure Book where
  id : Nat
  title : String
  author : String
  genre : Genre
  price : Nat
  description : String
  stock_quantity : Nat
  rating : Nat
  deriving Repr

/-- A row of the `customers` table (fields the agent tools touch). -/
structure Customer where
  id : Nat
  email : String
  name : String
  favorite_genres : List String
  shipping_address : Option String
  created_at : DateTime
  deriving Repr

/-- A row of `order_items`, with its eagerly-loaded `book` reachable
through `DB.bookOf`. -/
structure OrderItem where
  book_id : Nat
  quantity : Nat
  price_per_unit : Nat
  deriving Repr

/-- A row of the `orders` table, `items` eagerly loaded. -/
structure Order where
  id : Nat
  order_number : String
  customer_id : Nat
  status : OrderStatus
  total_amount : Nat
  order_date : DateTime
  shipping_method : Option String
  tracking_number : Option String
  carrier : Option String
  estimated_delivery : Option DateTime
  shipped_date : Option DateTime
  delivered_date : Option DateTime
  return_requested : Bool
  return_approved : Bool
  refund_processed : Bool
  return_reason : Option PyVal
  refund_amount : Option Nat
  items : List OrderItem
  deriving Repr

/-- A row of the `policies` table. -/
structure Policy where
  policy_type : String
  title : String
  content : String
  last_updated : DateTime
  deriving Repr

/-- A row of the `support_tickets` table. -/
structure SupportTicket where
  ticket_number : String
  customer_id : Nat
  category : PyVal
  subject : PyVal
  description : PyVal
  priority : TicketPriority
  status : TicketStatus
  deriving Repr

/-- The database session's view of the store: the tables the tools read
and write. Mutating handlers return an updated `DB` on commit. -/
structure DB where
  customers : List Customer
  orders : List Order
  books : List Book
  policies : List Policy
  tickets : List SupportTicket
  deriving Repr

/-- `item.book`: the relationship target; a dangling foreign key surfaces
as an `AttributeError` on first attribute access. -/
def DB.bookOf (db : DB) (it : OrderItem) : Except PyError Book :=
  match db.books.find? (fun b => b.id == it.book_id) with
  | some b => .ok b
  | none => .error (.attributeError "\x27NoneType\x27 object has no attribute \x27title\x27")

/-- A nullable string column rendered into a JSON payload. -/
def jOptStr : Option String → JVal
  | some s => .s s
  | none => .null

/-- A nullable date column rendered with `strftime("%B %d, %Y")`, else null. -/
def jOptDate : Option DateTime → JVal
  | some d => .s d.fmtBdY
  | none => .null

/-- A `PyVal` echoed back into a JSON payload. -/
def jOfPyVal : PyVal → JVal
  | .vstr s => .s s
  | .vint n => .i n
  | .vnone => .null

/-- Insertion step for a descending sort by a numeric key. -/
def insertDescBy {α : Type} (key : α → Nat) (x : α) : List α → List α
  | [] => [x]
  | y :: ys => if key y < key x then x :: y :: ys else y :: insertDescBy key x ys

/-- `order_by(col.desc())` over an in-memory row list. -/
def sortDescBy {α : Type} (key : α → Nat) (l : List α) : List α :=
  l.foldr (insertDescBy key) []

/-- `str.lower()`: per-character lowering (the embedding works over the
ASCII identifiers, emails and keywords the agent handles). -/
def strLower (s : String) : String := String.mk (s.toList.map Char.toLower)

/-- Containment of one character sequence inside another. -/
def containsSeq (hay needle : List Char) : Bool :=
  match hay with
  | [] => needle.isEmpty
  | _ :: t => needle.isPrefixOf hay || containsSeq t needle

/-- `ilike("%q%")`: case-insensitive substring containment. -/
def strContainsCI (hay needle : String) : Bool :=
  containsSeq (strLower hay).toList (strLower needle).toList

/-- The `customer.email.lower() != email.lower()` comparison of
`_get_order_status` (lines 227-228): evaluated only when `email` and
`customer` are both truthy; a non-string `email` raises on `.lower()`. -/
def emailMismatch (email : Option PyVal) (customer : Option Customer) : Except PyError Bool :=
  match email with
  | none => .ok false
  | some v =>
    if v.truthy then
      match customer with
      | none => .ok false
      | some c =>
        match v with
        | .vstr s => .ok (strLower c.email ≠ strLower s)
        | _ => .error (.attributeError "\x27int\x27 object has no attribute \x27lower\x27")
    else .ok false

/-- The order query of `_get_order_status` (tools.py lines 208-213):
`select(Order)`, with a `where(Order.order_number == order_id)` clause
added only when `order_id` is truthy — no email-based restriction. -/
def orderStatusQuery (order_id : Option PyVal) (db : DB) : List Order :=
  match order_id with
  | some v => if v.truthy then db.orders.filter (fun o => pvEqStr v o.order_number) else db.orders
  | none => db.orders

/-- `_get_order_status` of tools.py (lines 200-254). -/
def _get_order_status (params : Args) (db : DB) : Except PyError JVal := do
  let order_id := params.get "order_id"
  let email := params.get "email"
  if ¬ optValTruthy order_id ∧ ¬ optValTruthy email then
    return JVal.obj [("error", .s "Please provide either order_id or email")]
  let some order ← scalarOneOrNone (orderStatusQuery order_id db)
    | return JVal.obj [("error", .s "Order not found. Please verify the order number.")]
  let customer ← scalarOneOrNone (db.customers.filter (fun c => c.id == order.customer_id))
  if (← emailMismatch email customer) then
    return JVal.obj [("error", .s "Email does not match this order. Please verify your information.")]
  let items ← order.items.mapM (fun it => do
    let b ← db.bookOf it
    pure (JVal.obj [("title", .s b.title), ("author", .s b.author),
      ("quantity", .i it.quantity), ("price", .i it.price_per_unit)]))
  return JVal.obj [
    ("order_number", .s order.order_number),
    ("status", .s order.status.value),
    ("total_amount", .i order.total_amount),
    ("order_date", .s order.order_date.fmtBdY),
    ("items", .arr items),
    ("shipping_method", jOptStr order.shipping_method),
    ("tracking_number", jOptStr order.tracking_number),
    ("carrier", jOptStr order.carrier),
    ("estimated_delivery", jOptDate order.estimated_delivery),
    ("shipped_date", jOptDate order.shipped_date),
    ("delivered_date", jOptDate order.delivered_date),
    ("return_requested", .b order.return_requested),
    ("return_approved", .b order.return_approved)]

/-- One entry of `_search_orders`' per-order summary list. -/
def orderSummary (db : DB) (o : Order) : Except PyError JVal := do
  let titles ← (o.items.take 3).mapM (fun it => do
    let b ← db.bookOf it
    pure ("\x27" ++ b.title ++ "\x27"))
  let base := String.intercalate ", " titles
  let items_summary :=
    if o.items.length > 3 then base ++ " and " ++ toString (o.items.length - 3) ++ " more"
    else base
  return JVal.obj [
    ("order_number", .s o.order_number),
    ("status", .s o.status.value),
    ("order_date", .s o.order_date.fmtBdY),
    ("total_amount", .i o.total_amount),
    ("items_summary", .s items_summary),
    ("item_count", .i o.items.length)]

/-- `_search_orders` of tools.py (lines 257-306). -/
def _search_orders (params : Args) (db : DB) : Except PyError JVal := do
  let email := params.get "email"
  if ¬ optValTruthy email then
    return JVal.obj [("error", .s "Email is required to search orders")]
  let some customer ← scalarOneOrNone
      (db.customers.filter (fun c => pvEqStr (email.getD .vnone) c.email))
    | return JVal.obj [("error", .s ("No account found with email " ++ (email.getD .vnone).toStr))]
  let orders := sortDescBy (fun o => o.order_date.epochSeconds)
    (db.orders.filter (fun o => o.customer_id == customer.id))
  if orders.isEmpty then
    return JVal.obj [("message", .s "No orders found for this account."), ("orders", .arr [])]
  let orders_list ← orders.mapM (orderSummary db)
  return JVal.obj [
    ("customer_name", .s customer.name),
    ("orders", .arr orders_list),
    ("total_orders", .i orders_list.length)]

/-- `_get_customer_info` of tools.py (lines 309-337). -/
def _get_customer_info (params : Args) (db : DB) : Except PyError JVal := do
  let email := params.get "email"
  if ¬ optValTruthy email then
    return JVal.obj [("error", .s "Email is required")]
  let some customer ← scalarOneOrNone
      (db.customers.filter (fun c => pvEqStr (email.getD .vnone) c.email))
    | return JVal.obj [("error", .s ("No account found with email " ++ (email.getD .vnone).toStr))]
  let orders := db.orders.filter (fun o => o.customer_id == customer.id)
  return JVal.obj [
    ("name", .s customer.name),
    ("email", .s customer.email),
    ("member_since", .s customer.created_at.fmtBY),
    ("favorite_genres", .arr (customer.favorite_genres.map JVal.s)),
    ("total_orders", .i orders.length),
    ("has_shipping_address", .b customer.shipping_address.isSome)]

/-- `_initiate_return` of tools.py (lines 340-401). Mutates the matched
order and commits, so it returns the updated `DB`. Note line 364 reads
`customer.email` without a `None` check. -/
def _initiate_return (params : Args) (db : DB) (now : DateTime) : Except PyError (JVal × DB) := do
  let order_id := params.get "order_id"
  let reason := params.get "reason"
  let email := params.get "email"
  if ¬ ([order_id, reason, email].all optValTruthy) then
    return (JVal.obj [("error", .s "order_id, reason, and email are all required")], db)
  let oid := order_id.getD .vnone
  let some order ← scalarOneOrNone (db.orders.filter (fun o => pvEqStr oid o.order_number))
    | return (JVal.obj [("error", .s ("Order " ++ oid.toStr ++ " not found"))], db)
  let customer ← scalarOneOrNone (db.customers.filter (fun c => c.id == order.customer_id))
  let some c := customer
    | throw (.attributeError "\x27NoneType\x27 object has no attribute \x27email\x27")
  let emailOk ← match email.getD .vnone with
    | .vstr s => pure (strLower c.email == strLower s)
    | _ => throw (PyError.attributeError "\x27int\x27 object has no attribute \x27lower\x27")
  if ¬ emailOk then
    return (JVal.obj [("error", .s "Email does not match this order")], db)
  if order.return_requested then
    return (JVal.obj [("error", .s "A return has already been requested for this order")], db)
  if order.status ≠ OrderStatus.delivered then
    return (JVal.obj [("error", .s ("Order status is \x27" ++ order.status.value ++
      "\x27. Only delivered orders can be returned."))], db)
  if let some dd := order.delivered_date then
    let days := daysBetween now dd
    if days > 30 then
      return (JVal.obj [("error", .s ("This order was delivered " ++ toString days ++
        " days ago. Our return policy allows returns within 30 days of delivery. However, I can create a support ticket for our team to review your request."))], db)
  let db2 : DB := { db with
    orders := db.orders.map (fun o =>
      if pvEqStr oid o.order_number then
        { o with return_requested := true, return_reason := some (reason.getD .vnone),
                 return_approved := true, status := OrderStatus.returned,
                 refund_amount := some o.total_amount, refund_processed := true }
      else o) }
  return (JVal.obj [
    ("success", .b true),
    ("message", .s ("Return approved for order " ++ oid.toStr)),
    ("return_details", .obj [
      ("order_number", jOfPyVal oid),
      ("refund_amount", .i order.total_amount),
      ("reason", jOfPyVal (reason.getD .vnone)),
      ("instructions", .s "A prepaid return shipping label has been sent to your email. Please ship the items within 7 days. Your refund will be processed within 5-7 business days after we receive the return.")])], db2)

/-- `_get_policy_info` of tools.py (lines 404-424). -/
def _get_policy_info (params : Args) (db : DB) : Except PyError JVal := do
  let policy_type := params.get "policy_type"
  if ¬ optValTruthy policy_type then
    return JVal.obj [("error", .s "policy_type is required")]
  let pt := policy_type.getD .vnone
  let some policy ← scalarOneOrNone (db.policies.filter (fun p => pvEqStr pt p.policy_type))
    | return JVal.obj [("error", .s ("Policy \x27" ++ pt.toStr ++ "\x27 not found"))]
  return JVal.obj [
    ("policy_type", .s policy.policy_type),
    ("title", .s policy.title),
    ("content", .s policy.content),
    ("last_updated", .s policy.last_updated.fmtBdY)]

/-- `Genre(value)` applied to an argument `PyVal`, with the caught
`ValueError` outcome as `none`. -/
def genreOfPyVal : PyVal → Option Genre
  | .vstr s => Genre.ofString? s
  | _ => none

/-- `_get_recommendations` of tools.py (lines 427-495). Non-integer
`limit` arguments are outside the model (the SQL layer's behaviour for
them is backend-specific); an absent `limit` defaults to 5. -/
def _get_recommendations (params : Args) (db : DB) : Except PyError JVal := do
  let email := params.get "email"
  let genre_filter := params.get "genre"
  let limit : Int := match params.get "limit" with
    | some (.vint n) => n
    | _ => 5
  let mut favorite_genres : List String := []
  let mut purchased_ids : List Nat := []
  if optValTruthy email then
    let customer ← scalarOneOrNone
      (db.customers.filter (fun c => pvEqStr (email.getD .vnone) c.email))
    if let some c := customer then
      favorite_genres := c.favorite_genres
      purchased_ids := (db.orders.filter (fun o => o.customer_id == c.id)).flatMap
        (fun o => o.items.map (fun it => it.book_id))
  let base := db.books.filter (fun b => b.stock_quantity > 0)
  let base := if purchased_ids.isEmpty then base
    else base.filter (fun b => ¬ purchased_ids.contains b.id)
  let filtered :=
    if optValTruthy genre_filter then
      match genreOfPyVal (genre_filter.getD .vnone) with
      | some g => base.filter (fun b => b.genre == g)
      | none => base
    else if ¬ favorite_genres.isEmpty then
      let genre_enums := favorite_genres.filterMap Genre.ofString?
      if genre_enums.isEmpty then base
      else base.filter (fun b => genre_enums.contains b.genre)
    else base
  let books := (sortDescBy (fun b => b.rating) filtered).take limit.toNat
  return JVal.obj [
    ("recommendations", .arr (books.map (fun b => JVal.obj [
      ("title", .s b.title),
      ("author", .s b.author),
      ("genre", .s b.genre.value),
      ("price", .i b.price),
      ("rating", .i b.rating),
      ("description", .s (if b.description.length > 200
        then String.mk (b.description.toList.take 200) ++ "..." else b.description))]))),
    ("based_on", .s (if ¬ favorite_genres.isEmpty
      then "your preferences (" ++ String.intercalate ", " favorite_genres ++ ")"
      else "popular books"))]

/-- `_search_books` of tools.py (lines 498-541). -/
def _search_books (params : Args) (db : DB) : Except PyError JVal := do
  let query_text := (params.get "query").getD (.vstr "")
  let genre_filter := params.get "genre"
  if ¬ query_text.truthy then
    return JVal.obj [("error", .s "Search query is required")]
  let q := query_text.toStr
  let base := db.books.filter (fun b => strContainsCI b.title q || strContainsCI b.author q)
  let filtered :=
    if optValTruthy genre_filter then
      match genreOfPyVal (genre_filter.getD .vnone) with
      | some g => base.filter (fun b => b.genre == g)
      | none => base
    else base
  let books := filtered.take 10
  if books.isEmpty then
    return JVal.obj [("message", .s ("No books found matching \x27" ++ q ++ "\x27")),
      ("books", .arr [])]
  return JVal.obj [
    ("books", .arr (books.map (fun b => JVal.obj [
      ("title", .s b.title),
      ("author", .s b.author),
      ("genre", .s b.genre.value),
      ("price", .i b.price),
      ("in_stock", .b (b.stock_quantity > 0)),
      ("rating", .i b.rating)]))),
    ("total_found", .i books.length)]

/-- `_create_support_ticket` of tools.py (lines 544-585). Adds the ticket
and commits, so it returns the updated `DB`. `TicketPriority(priority)`
raises `ValueError` on an unrecognised priority, which escapes here. -/
def _create_support_ticket (params : Args) (db : DB) (now : DateTime) : Except PyError (JVal × DB) := do
  let email := params.get "email"
  let category := params.get "category"
  let subject := params.get "subject"
  let description := params.get "description"
  let priority := (params.get "priority").getD (.vstr "medium")
  if ¬ ([email, category, subject, description].all optValTruthy) then
    return (JVal.obj [("error", .s "email, category, subject, and description are required")], db)
  let some customer ← scalarOneOrNone
      (db.customers.filter (fun c => pvEqStr (email.getD .vnone) c.email))
    | return (JVal.obj [("error", .s ("No account found with email " ++
        (email.getD .vnone).toStr ++ ". Please verify your email."))], db)
  let ticket_number := "TKT-" ++ now.fmtCompact
  let prio ← TicketPriority.ofPyVal priority
  let ticket : SupportTicket := {
    ticket_number := ticket_number,
    customer_id := customer.id,
    category := category.getD .vnone,
    subject := subject.getD .vnone,
    description := description.getD .vnone,
    priority := prio,
    status := TicketStatus.open_ }
  let db2 : DB := { db with tickets := db.tickets ++ [ticket] }
  return (JVal.obj [
    ("success", .b true),
    ("ticket_number", .s ticket_number),
    ("message", .s ("Support ticket " ++ ticket_number ++
      " has been created. Our team will contact you within 24 hours at " ++
      (email.getD .vnone).toStr ++ ".")),
    ("priority", jOfPyVal priority)], db2)

/-- `execute_tool` of tools.py (lines 173-197): the Tool Registry's
dispatch. It performs no exception handling of its own — an exception
raised inside a handler (a `.error` value here) propagates to the caller. -/
def execute_tool (tool_name : String) (tool_input : Args) (db : DB) (now : DateTime) :
    Except PyError (JVal × DB) :=
  if tool_name == "get_order_status" then
    (_get_order_status tool_input db).map (fun j => (j, db))
  else if tool_name == "search_orders" then
    (_search_orders tool_input db).map (fun j => (j, db))
  else if tool_name == "get_customer_info" then
    (_get_customer_info tool_input db).map (fun j => (j, db))
  else if tool_name == "initiate_return" then
    _initiate_return tool_input db now
  else if tool_name == "get_policy_info" then
    (_get_policy_info tool_input db).map (fun j => (j, db))
  else if tool_name == "get_recommendations" then
    (_get_recommendations tool_input db).map (fun j => (j, db))
  else if tool_name == "search_books" then
    (_search_books tool_input db).map (fun j => (j, db))
  else if tool_name == "create_support_ticket" then
    _create_support_ticket tool_input db now
  else
    .ok (JVal.obj [("error", .s ("Unknown tool: " ++ tool_name))], db)

/-! ## The controller: `backend/agent/controller.py` and `prompts.py` -/

/-- `ORDER_ID_PATTERN` (`ORD-\d{4}-\d{5}`, case-insensitive) matched
against exactly one candidate position: true when the first 14 characters
have the order-token shape. -/
def orderShape (tok : List Char) : Bool :=
  match tok with
  | [o, r, d, h1, a1, a2, a3, a4, h2, b1, b2, b3, b4, b5] =>
    (o.toLower == 'o') && (r.toLower == 'r') && (d.toLower == 'd') &&
    (h1 == '-') && a1.isDigit && a2.isDigit && a3.isDigit && a4.isDigit &&
    (h2 == '-') && b1.isDigit && b2.isDigit && b3.isDigit && b4.isDigit && b5.isDigit
  | _ => false

/-- The pattern attempted at one starting position: the fixed-length
14-character window when it has the order-token shape. -/
def matchOrderAt (cs : List Char) : Option (List Char) :=
  let tok := cs.take 14
  if orderShape tok then some tok else none

/-- `ORDER_ID_PATTERN.search`: the leftmost match of the fixed-length
pattern, scanning starting positions left to right. -/
def searchOrder : List Char → Option (List Char)
  | [] => none
  | c :: rest =>
    match matchOrderAt (c :: rest) with
    | some m => some m
    | none => searchOrder rest

/-- `AgentController._extract_order_id` (controller.py lines 148-153):
the matched token uppercased, or `None`. -/
def _extract_order_id (message : String) : Option String :=
  (searchOrder message.toList).map (fun cs => String.mk (cs.map Char.toUpper))

/-- The text of `SYSTEM_PROMPT` before the `{context}` placeholder
(prompts.py lines 3-143). The instruction prose is elided: no claim
depends on its wording, only on how the context block is substituted. -/
def promptBeforeContext : String :=
  "You are a helpful, professional customer support agent for Bookly, an online bookstore. [elided instruction text] ## CURRENT CONTEXT\n"

/-- The text of `SYSTEM_PROMPT` after the `{context}` placeholder. -/
def promptAfterContext : String :=
  "\n\nRemember: Your goal is to provide excellent customer service while being accurate, helpful, and safe. When in doubt, use a tool to verify information rather than guessing."

/-- `get_system_prompt` of prompts.py (lines 148-164): assembles the
context block from the session fields and substitutes it into the
template. -/
def get_system_prompt (user_email : Option String) (user_name : Option String)
    (current_order_id : Option String) : String :=
  let context_parts : List String :=
    (match user_email with
      | some e => if e ≠ "" then ["Customer email: " ++ e] else []
      | none => []) ++
    (match user_name with
      | some n => if n ≠ "" then ["Customer name: " ++ n] else []
      | none => []) ++
    (match current_order_id with
      | some o => if o ≠ "" then
          ["Current order being discussed: " ++ o ++ " (use this for any order-related tool calls)"]
        else []
      | none => [])
  let context :=
    if context_parts.isEmpty then
      "Customer is not logged in. Ask for email when needed for order lookups."
    else String.intercalate "\n" context_parts
  promptBeforeContext ++ context ++ promptAfterContext

/-- A provider API error as classified by the controller: its message and,
for `anthropic.APIStatusError`, the HTTP status code. -/
structure ApiError where
  message : String
  is_status_error : Bool
  status_code : Nat
  deriving DecidableEq, Repr

/-- `AgentController._should_fallback_to_openai` (controller.py lines
163-172). Note that every branch, including the final fall-through,
returns `True`. -/
def _should_fallback_to_openai (error : ApiError) : Bool :=
  let error_message := strLower error.message
  if ["credit", "balance", "billing", "payment", "insufficient"].any
      (fun k => containsSeq error_message.toList k.toList) then true
  else if error.is_status_error &&
      [400, 401, 403, 429, 500, 502, 503].contains error.status_code then true
  else true

/-- `AgentController._inject_order_context` (controller.py lines 155-161). -/
def _inject_order_context (current_order_id : Option String) (tool_name : String)
    (tool_input : Args) : Args :=
  if ["get_order_status", "initiate_return"].contains tool_name then
    if ¬ truthyGet tool_input "order_id" ∧ optTruthy current_order_id then
      tool_input.set "order_id" (.vstr (current_order_id.getD ""))
    else tool_input
  else tool_input

/-- The inline email-injection block of the turn loops (controller.py
lines 464-470 and 635-641). -/
def injectEmailContext (user_email : Option String) (tool_name : String)
    (tool_input : Args) : Args :=
  match user_email with
  | none => tool_input
  | some e =>
    if e == "" then tool_input
    else if ["search_orders", "get_customer_info", "initiate_return",
        "create_support_ticket", "get_recommendations"].contains tool_name then
      (if ¬ truthyGet tool_input "email" then tool_input.set "email" (.vstr e) else tool_input)
    else if tool_name == "get_order_status" && ¬ truthyGet tool_input "email" then
      tool_input.set "email" (.vstr e)
    else tool_input

/-- The full argument enrichment applied before dispatch: order-context
injection then email injection, in source order. -/
def enrich (user_email current_order_id : Option String) (tool_name : String)
    (args : Args) : Args :=
  injectEmailContext user_email tool_name (_inject_order_context current_order_id tool_name args)

/-- One `tool_use` content block of an assistant message. -/
structure ToolUse where
  id : String
  name : String
  input : Args
  deriving DecidableEq, Repr

/-- An assistant content block (Anthropic wire shape). -/
inductive Block where
  | text (s : String)
  | tool_use (id : String) (name : String) (input : Args)
  deriving DecidableEq, Repr

/-- `[block for block in assistant_content if block.type == "tool_use"]`. -/
def toolUsesOf (bs : List Block) : List ToolUse :=
  bs.filterMap (fun b => match b with
    | .tool_use i n inp => some ⟨i, n, inp⟩
    | .text _ => none)

/-- One `tool_result` entry appended back into the Anthropic history. -/
structure TRes where
  tool_use_id : String
  content : JVal
  deriving Repr

/-- Content of one Anthropic-history message. -/
inductive AContent where
  | text (s : String)
  | blocks (bs : List Block)
  | results (rs : List TRes)
  deriving Repr

/-- A message of `self.conversation_history`: tool results are carried in
a message whose role is `"user"`, like the dicts the controller builds. -/
structure Msg where
  role : String
  content : AContent
  deriving Repr

/-- The structured error payload used when no database session is
attached (controller.py lines 448-457 and 621-630). -/
def dbErrObj : JVal :=
  .obj [("error", .s "Database session not available. Please try again.")]

/-- The tool-name-specific message wrapped around an escaped exception. -/
def errWhileMsg (tool_name : String) : String :=
  "I encountered an error while " ++
    String.mk (tool_name.toList.map (fun c => if c == '_' then ' ' else c)) ++
    ". Please try again or rephrase your request."

/-- The controller's wrapper around `execute_tool` (lines 472-496 /
643-667): catches any exception from the dispatch, converting it into a
structured error payload; a falsy result becomes the unknown-error
payload (lines 511-514). -/
def executeWrapped (now : DateTime) (tool_name : String) (tool_input : Args) (db : DB) :
    JVal × DB :=
  match execute_tool tool_name tool_input db now with
  | .ok (result, db2) =>
    ((if jvalFalsy result then JVal.obj [("error", .s "Unknown error occurred")] else result), db2)
  | .error e =>
    (JVal.obj [("error", .s (errWhileMsg tool_name)), ("details", .s (pyErrStr e))], db)

/-- `self.tools_used` unique-append (controller.py lines 444-445). -/
def updateToolsUsed (tools_used : List String) (tool_name : String) : List String :=
  if tools_used.contains tool_name then tools_used else tools_used ++ [tool_name]

/-- Processing of one requested tool call in the Anthropic loop
(controller.py lines 448-515): the backend-availability short-circuit,
argument enrichment, and the wrapped dispatch. -/
def runToolUse (now : DateTime) (user_email current_order_id : Option String)
    (db : Option DB) (tu : ToolUse) : TRes × Option DB :=
  match db with
  | none => (⟨tu.id, dbErrObj⟩, none)
  | some d =>
    let tool_input := _inject_order_context current_order_id tu.name tu.input
    let tool_input := injectEmailContext user_email tu.name tool_input
    let res := executeWrapped now tu.name tool_input d
    (⟨tu.id, res.1⟩, some res.2)

/-- The `for tool_use in tool_uses` loop body, threading the database and
`self.tools_used` through the calls in emission order. -/
def runToolUses (now : DateTime) (user_email current_order_id : Option String) :
    Option DB → List String → List ToolUse → List TRes × Option DB × List String
  | db, tools, [] => ([], db, tools)
  | db, tools, tu :: rest =>
    let tools2 := updateToolsUsed tools tu.name
    let r := runToolUse now user_email current_order_id db tu
    let rest2 := runToolUses now user_email current_order_id r.2 tools2 rest
    (r.1 :: rest2.1, rest2.2.1, rest2.2.2)

/-- One scripted Anthropic provider response: the final message content,
or a raised `anthropic.APIError`. -/
inductive AStep where
  | reply (blocks : List Block)
  | fail (e : ApiError)
  deriving Repr

/-- Read-only context of one turn loop: the clock, the session fields the
loop enriches from, and the system prompt computed for this invocation. -/
structure LoopCtx where
  now : DateTime
  user_email : Option String
  current_order_id : Option String
  sp : String
  deriving Repr

/-- The running state and outcome of a provider loop over the Anthropic
history: `calls` counts provider calls, `prompts` records the system
prompt passed to each, and `err` is a raised provider error. -/
structure ARun where
  history : List Msg
  db : Option DB
  tools_used : List String
  calls : Nat
  prompts : List String
  err : Option ApiError

/-- The `while turn_count < self.max_turns` loop of
`_process_with_anthropic` (controller.py lines 391-517), driven by a
script giving the provider's response to the k-th call. -/
def anthropicTurns (ctx : LoopCtx) (script : Nat → AStep) : Nat → ARun → ARun
  | 0, s => s
  | fuel + 1, s =>
    let idx := s.calls
    let s := { s with calls := s.calls + 1, prompts := s.prompts ++ [ctx.sp] }
    match script idx with
    | .fail e => { s with err := some e }
    | .reply blocks =>
      let s := { s with history := s.history ++ [⟨"assistant", .blocks blocks⟩] }
      let tus := toolUsesOf blocks
      if tus.isEmpty then s
      else
        let res :=
          runToolUses ctx.now ctx.user_email ctx.current_order_id s.db s.tools_used tus
        anthropicTurns ctx script fuel
          { s with history := s.history ++ [⟨"user", .results res.1⟩],
                   db := res.2.1, tools_used := res.2.2 }

/-- The end-of-loop truncation `self.conversation_history[-20:]`
(controller.py lines 519-520). -/
def trim20 (h : List Msg) : List Msg :=
  if h.length > 20 then h.drop (h.length - 20) else h

/-- One accumulated OpenAI tool call; `args = none` models a
`json.JSONDecodeError` on the streamed argument string (then treated as
`{}`, controller.py lines 616-619). -/
structure OToolCall where
  id : String
  name : String
  args : Option Args
  deriving DecidableEq, Repr

/-- A message of `self.openai_messages`. -/
inductive OMsg where
  | system (content : String)
  | user (content : String)
  | assistant (content : Option String) (tool_calls : List OToolCall)
  | tool (tool_call_id : String) (content : JVal)
  deriving Repr

/-- One scripted OpenAI provider response: accumulated text content and
tool calls, or a raised `openai.APIError`. -/
inductive OStep where
  | reply (content : String) (tool_calls : List OToolCall)
  | fail (e : ApiError)
  deriving Repr

/-- The running state and outcome of the OpenAI loop. -/
structure ORun where
  msgs : List OMsg
  db : Option DB
  tools_used : List String
  calls : Nat
  prompts : List String
  err : Option ApiError

/-- The `for tc in tool_calls` loop of `_process_with_openai`
(controller.py lines 607-686): empty-id entries are skipped, tool names
are recorded before parsing, and each processed call appends one
`role="tool"` message. -/
def runOToolCalls (now : DateTime) (user_email current_order_id : Option String) :
    Option DB → List String → List OMsg → List OToolCall → List OMsg × Option DB × List String
  | db, tools, msgs, [] => (msgs, db, tools)
  | db, tools, msgs, tc :: rest =>
    if tc.id == "" then runOToolCalls now user_email current_order_id db tools msgs rest
    else
      let tools2 := updateToolsUsed tools tc.name
      let tool_input := tc.args.getD []
      match db with
      | none =>
        runOToolCalls now user_email current_order_id none tools2
          (msgs ++ [OMsg.tool tc.id dbErrObj]) rest
      | some d =>
        let tool_input := _inject_order_context current_order_id tc.name tool_input
        let tool_input := injectEmailContext user_email tc.name tool_input
        let res := executeWrapped now tc.name tool_input d
        runOToolCalls now user_email current_order_id (some res.2) tools2
          (msgs ++ [OMsg.tool tc.id res.1]) rest

/-- The `while turn_count < self.max_turns` loop of
`_process_with_openai` (controller.py lines 544-686). -/
def openaiTurns (ctx : LoopCtx) (script : Nat → OStep) : Nat → ORun → ORun
  | 0, s => s
  | fuel + 1, s =>
    let idx := s.calls
    let s := { s with calls := s.calls + 1, prompts := s.prompts ++ [ctx.sp] }
    match script idx with
    | .fail e => { s with err := some e }
    | .reply content tcs =>
      let withIds := tcs.filter (fun t => t.id ≠ "")
      let s := { s with msgs := s.msgs ++
        [OMsg.assistant (if content == "" then none else some content)
          (if tcs.isEmpty then [] else withIds)] }
      if tcs.isEmpty || withIds.isEmpty then s
      else
        let res :=
          runOToolCalls ctx.now ctx.user_email ctx.current_order_id s.db s.tools_used s.msgs tcs
        openaiTurns ctx script fuel { s with msgs := res.1, db := res.2.1, tools_used := res.2.2 }

/-- The end-of-loop truncation of `self.openai_messages` (controller.py
lines 688-689): the system entry is kept and the rest is cut to the most
recent 20. -/
def trimOpenAI (msgs : List OMsg) : List OMsg :=
  if msgs.length > 21 then
    match msgs with
    | m0 :: _ => m0 :: msgs.drop (msgs.length - 20)
    | [] => msgs
  else msgs

/-- The active-provider tag of a session. -/
inductive Provider where
  | anthropic
  | openai
  deriving DecidableEq, Repr

/-- The mutable per-session state of `AgentController` (controller.py
`__init__`, lines 70-107). `has_anthropic` / `has_openai` record whether
the corresponding client was initialised from an API key. -/
structure AgentState where
  session_id : String
  db : Option DB
  active_provider : Provider
  has_anthropic : Bool
  has_openai : Bool
  conversation_history : List Msg
  openai_messages : List OMsg
  user_email : Option String
  user_name : Option String
  max_turns : Nat
  turn_count : Nat
  current_order_id : Option String
  tools_used : List String

/-- `_process_with_anthropic` (controller.py lines 377-520): appends the
user message, computes the system prompt for this invocation, runs the
turn loop, and trims the history — unless a provider error escaped
(`err.isSome`), in which case the trim line is skipped and the error
propagates. -/
def processWithAnthropic (st : AgentState) (user_message : String)
    (script : Nat → AStep) (now : DateTime) : ARun :=
  let sp := get_system_prompt st.user_email st.user_name st.current_order_id
  let ctx : LoopCtx := ⟨now, st.user_email, st.current_order_id, sp⟩
  let init : ARun :=
    ⟨st.conversation_history ++ [⟨"user", .text user_message⟩], st.db, st.tools_used, 0, [], none⟩
  let r := anthropicTurns ctx script st.max_turns init
  { r with history := if r.err.isSome then r.history else trim20 r.history }

/-- `_process_with_openai` (controller.py lines 522-689): refreshes the
system entry at index 0 with the prompt for this invocation, appends the
user message, runs the loop, and trims — unless a provider error escaped. -/
def processWithOpenai (st : AgentState) (user_message : String)
    (script : Nat → OStep) (now : DateTime) : ORun :=
  let sp := get_system_prompt st.user_email st.user_name st.current_order_id
  let ctx : LoopCtx := ⟨now, st.user_email, st.current_order_id, sp⟩
  let msgs0 := match st.openai_messages with
    | [] => [OMsg.system sp]
    | _ :: rest => OMsg.system sp :: rest
  let init : ORun := ⟨msgs0 ++ [OMsg.user user_message], st.db, st.tools_used, 0, [], none⟩
  let r := openaiTurns ctx script st.max_turns init
  { r with msgs := if r.err.isSome then r.msgs else trimOpenAI r.msgs }

/-- The terminal event of one `process_message` invocation: a normal
completion on a provider, or a single `error` chunk. -/
inductive Outcome where
  | completed (provider : Provider)
  | errorChunk (message : String)
  deriving DecidableEq, Repr

/-- The observable result of one `process_message` invocation: the
updated session state, per-provider call counts, the system prompt passed
at each provider call, every active-provider switch performed, and the
terminal event. -/
structure PMOut where
  st : AgentState
  aCalls : Nat
  oCalls : Nat
  aPrompts : List String
  oPrompts : List String
  switches : List (Provider × Provider)
  outcome : Outcome

/-- The fallback cleanup of controller.py lines 289-290: drop the just
appended user message when it is still the last history entry (note that
tool-result messages also carry the `"user"` role). -/
def popTrailingUser (h : List Msg) : List Msg :=
  match h.getLast? with
  | some m => if m.role == "user" then h.dropLast else h
  | none => h

/-- The OpenAI arm of `process_message` (controller.py lines 296-339),
reached either directly or after a fallback: runs the OpenAI loop when
the client exists and OpenAI is active, else emits the no-provider error. -/
def openaiBranch (st : AgentState) (user_message : String) (oscript : Nat → OStep)
    (now : DateTime) : PMOut :=
  if st.has_openai && st.active_provider == Provider.openai then
    let r := processWithOpenai st user_message oscript now
    let st2 := { st with openai_messages := r.msgs, db := r.db, tools_used := r.tools_used }
    match r.err with
    | none => ⟨st2, 0, r.calls, [], r.prompts, [], .completed .openai⟩
    | some _ => ⟨st2, 0, r.calls, [], r.prompts, [],
        .errorChunk "I apologize, but both AI providers are currently unavailable."⟩
  else
    ⟨st, 0, 0, [], [], [], .errorChunk "No AI provider configured. Please check API keys."⟩

/-- The user-context refresh of controller.py lines 188-190:
`if user_email: self.user_email = user_email`. -/
def observeUserEmail (st : AgentState) (user_email : Option String) : AgentState :=
  match user_email with
  | some e => if e ≠ "" then { st with user_email := some e } else st
  | none => st

/-- The order-context refresh of controller.py lines 192-195: a detected
order id replaces `self.current_order_id`, otherwise it is untouched. -/
def observeOrderId (st : AgentState) (user_message : String) : AgentState :=
  match _extract_order_id user_message with
  | some oid => { st with current_order_id := some oid }
  | none => st

/-- The provider-selection body of `process_message` (controller.py lines
250-339), applied to the session state after the context refreshes: tries
the Anthropic arm when it is active, falls back to OpenAI at most once on
a provider error, and otherwise uses the OpenAI arm. -/
def process_message_core (st : AgentState) (user_message : String)
    (ascript : Nat → AStep) (oscript : Nat → OStep) (now : DateTime) : PMOut :=
  if st.has_anthropic && st.active_provider == Provider.anthropic then
    let r := processWithAnthropic st user_message ascript now
    match r.err with
    | none =>
      ⟨{ st with conversation_history := r.history, db := r.db, tools_used := r.tools_used },
        r.calls, 0, r.prompts, [], [], .completed .anthropic⟩
    | some e =>
      if _should_fallback_to_openai e then
        let st2 := { st with active_provider := Provider.openai,
                             conversation_history := popTrailingUser r.history,
                             db := r.db, tools_used := r.tools_used }
        let res := openaiBranch st2 user_message oscript now
        { res with aCalls := r.calls, aPrompts := r.prompts,
                   switches := (Provider.anthropic, Provider.openai) :: res.switches }
      else
        ⟨{ st with conversation_history := r.history, db := r.db, tools_used := r.tools_used },
          r.calls, 0, r.prompts, [], [],
          .errorChunk "I apologize, but I\x27m having trouble processing your request."⟩
  else
    openaiBranch st user_message oscript now

/-- `process_message` (controller.py lines 174-339): bumps the session
turn counter, refreshes the user email, extracts an order id from the
message, then runs the provider-selection body. -/
def process_message (st0 : AgentState) (user_message : String) (user_email : Option String)
    (ascript : Nat → AStep) (oscript : Nat → OStep) (now : DateTime) : PMOut :=
  let st := { st0 with turn_count := st0.turn_count + 1 }
  let st := observeUserEmail st user_email
  let st := observeOrderId st user_message
  process_message_core st user_message ascript oscript now

/-- `reset_conversation` (controller.py lines 700-706). -/
def reset_conversation (st : AgentState) : AgentState :=
  { st with conversation_history := [], openai_messages := [],
            turn_count := 0, current_order_id := none, tools_used := [] }

/-! ## Observation helpers and concrete data used by the theorems -/

/-- `tok` occurs as a contiguous run inside `cs`. -/
def containsToken (cs tok : List Char) : Prop :=
  ∃ s t, cs = s ++ tok ++ t

/-- All `tool_use_id`s answered by tool-result messages of a history. -/
def collectResultIds (h : List Msg) : List String :=
  h.foldr (fun m acc => match m.content with
    | .results rs => rs.map (fun r => r.tool_use_id) ++ acc
    | _ => acc) []

/-- All `tool_use` block ids issued by assistant messages of a history. -/
def collectCallIds (h : List Msg) : List String :=
  h.foldr (fun m acc => match m.content with
    | .blocks bs => (toolUsesOf bs).map (fun tu => tu.id) ++ acc
    | _ => acc) []

/-- A history holds a ToolResult whose paired ToolCall is absent. -/
def hasOrphanToolResult (h : List Msg) : Bool :=
  (collectResultIds h).any (fun i => ¬ (collectCallIds h).contains i)

/-- A fixed clock instant for concrete executions. -/
def demoNow : DateTime := ⟨2024, 6, 15, 12, 0, 0, 1718452800⟩

/-- A demo customer row. -/
def cust1 : Customer :=
  ⟨1, "alice@example.com", "Alice", [], none, ⟨2023, 1, 5, 0, 0, 0, 1672876800⟩⟩

/-- A delivered demo order of `cust1`. -/
def order1 : Order :=
  ⟨1, "ORD-2024-00001", 1, .delivered, 30, ⟨2024, 5, 1, 0, 0, 0, 1714521600⟩,
    some "standard", some "TRK1", some "UPS", none, none,
    some ⟨2024, 5, 10, 0, 0, 0, 1715299200⟩, false, false, false, none, none, []⟩

/-- A second demo order of `cust1`, still in transit. -/
def order2 : Order :=
  ⟨2, "ORD-2024-00002", 1, .shipped, 45, ⟨2024, 5, 20, 0, 0, 0, 1716163200⟩,
    some "standard", none, none, none, none, none, false, false, false, none, none, []⟩

/-- A demo database holding one customer and two of their orders. -/
def demoDB : DB := ⟨[cust1], [order1, order2], [], [], []⟩

/-- A freshly constructed session: both clients configured, Anthropic
active, defaults of `AgentController.__init__`, no database session. -/
def freshState : AgentState :=
  ⟨"s1", none, .anthropic, true, true, [], [], none, none, 10, 0, none, []⟩

/-- A classified rate-limit provider error. -/
def rateErr : ApiError := ⟨"rate limited", true, 429⟩

/-- Anthropic script that raises on every call. -/
def c1FailScript : Nat → AStep := fun _ => .fail rateErr

/-- Anthropic script for the call-budget run: raises immediately. -/
def c2AScript : Nat → AStep := fun _ => .fail rateErr

/-- OpenAI script that requests a tool call on every turn. -/
def c2OScript : Nat → OStep := fun _ => .reply "" [⟨"c1", "get_order_status", some []⟩]

/-- First-message Anthropic script for the trimming run: nine tool-call
turns followed by a plain-text turn, giving a 20-message history. -/
def c4Script1 : Nat → AStep := fun k =>
  if k < 9 then .reply [.tool_use ("id" ++ toString (k + 1)) "get_policy_info" []]
  else .reply [.text "done"]

/-- Second-message Anthropic script for the trimming run: plain text. -/
def c4Script2 : Nat → AStep := fun _ => .reply [.text "ok"]

/-- An OpenAI script that is never reached. -/
def idleOScript : Nat → OStep := fun _ => .reply "idle" []

/-- Session state after the first trimming-run message. -/
def c4Run1 : AgentState := (process_message freshState "hello" none c4Script1 idleOScript demoNow).st

/-- Session state after the second trimming-run message. -/
def c4Run2 : AgentState := (process_message c4Run1 "again" none c4Script2 idleOScript demoNow).st

/-- Arguments carrying a valid customer but an invalid ticket priority. -/
def c1Args : Args :=
  [("email", .vstr "alice@example.com"), ("category", .vstr "order"),
   ("subject", .vstr "Help"), ("description", .vstr "Broken"), ("priority", .vstr "asap")]

/-- Arguments for an order lookup giving only an email. -/
def c10Args : Args := [("email", .vstr "alice@example.com")]

/-! ## Helper lemmas about the turn loops -/

/-- A provider error reported by the Anthropic loop either entered with
the initial state or was produced by the provider script: the tool-call
processing of the loop body never raises. -/
theorem anthropicTurns_err_src (ctx : LoopCtx) (script : Nat → AStep) :
    ∀ (fuel : Nat) (s : ARun) (e : ApiError),
      (anthropicTurns ctx script fuel s).err = some e →
      s.err = some e ∨ ∃ j, script j = AStep.fail e := by
  intro fuel
  induction fuel with
  | zero => intro s e h; exact Or.inl h
  | succ n ih =>
    intro s e h
    simp only [anthropicTurns] at h
    cases hs : script s.calls with
    | fail e2 =>
      rw [hs] at h
      simp only at h
      injection h with he
      subst he
      exact Or.inr ⟨s.calls, hs⟩
    | reply blocks =>
      rw [hs] at h
      simp only at h
      split at h
      · exact Or.inl h
      · rcases ih _ _ h with h2 | h2
        · exact Or.inl h2
        · exact Or.inr h2

/-! ## Claim C9 -/

/-- Claim C9: `reset_conversation` clears exactly the conversation state
(both provider histories, the turn counter, the current order id and the
tools-used list) and changes nothing else — the active provider, known
user email and known user name (and every remaining session field) are
left unchanged, so a session that has fallen back to OpenAI stays on
OpenAI after an explicit conversation reset. -/
theorem c9_reset_clears_only_conversation_state (st : AgentState) :
    (reset_conversation st).conversation_history = [] ∧
    (reset_conversation st).openai_messages = [] ∧
    (reset_conversation st).turn_count = 0 ∧
    (reset_conversation st).current_order_id = none ∧
    (reset_conversation st).tools_used = [] ∧
    (reset_conversation st).active_provider = st.active_provider ∧
    (reset_conversation st).user_email = st.user_email ∧
    (reset_conversation st).user_name = st.user_name ∧
    (reset_conversation st).session_id = st.session_id ∧
    (reset_conversation st).db = st.db ∧
    (reset_conversation st).has_anthropic = st.has_anthropic ∧
    (reset_conversation st).has_openai = st.has_openai ∧
    (reset_conversation st).max_turns = st.max_turns :=
  ⟨rfl, rfl, rfl, rfl, rfl, rfl, rfl, rfl, rfl, rfl, rfl, rfl, rfl⟩

/-! ## Claim C4 -/

/-- Claim C4 (amended): end-of-turn trimming keeps exactly the most
recent `min length 20` messages and removes only a prefix (the oldest
entries). Hence a ToolResult is never dropped while its earlier, paired
ToolCall is retained. The converse split is possible: when a pair
straddles the window boundary the ToolCall is dropped while its
ToolResult is retained (see the counterexample). -/
theorem c4_trim_removes_only_oldest (h : List Msg) :
    (trim20 h).length = min h.length 20 ∧ ∃ k, trim20 h = List.drop k h := by
  unfold trim20
  by_cases hl : h.length > 20
  · simp only [hl, if_pos]
    refine ⟨?_, ⟨h.length - 20, rfl⟩⟩
    rw [List.length_drop]
    omega
  · simp only [hl, if_neg, not_false_iff]
    refine ⟨?_, ⟨0, (List.drop_zero h).symm⟩⟩
    omega

/-- Claim C4 counterexample: a reachable two-message session (nine
tool-call turns then text, leaving a 20-message history with a
ToolCall/ToolResult pair at its front, followed by a plain exchange)
whose end-of-turn trim drops the ToolCall `id1` but retains its paired
ToolResult — the pair straddling the window is split, refuting
"both members of the pair are removed together, never split". -/
theorem c4_counterexample :
    c4Run1.conversation_history.length = 20 ∧
    hasOrphanToolResult c4Run1.conversation_history = false ∧
    c4Run2.conversation_history.length = 20 ∧
    hasOrphanToolResult c4Run2.conversation_history = true :=
  ⟨by decide, by decide, by decide, by decide⟩

/-! ## Claim C1 -/

/-- Claim C1 (amended): exceptions raised inside a tool handler do escape
`execute_tool` (see the counterexample), but the turn loop's wrapper
around the dispatch catches every such exception and converts it into a
structured error payload: the only errors the Anthropic turn loop can
report are provider errors produced by the provider script — a tool
failure never aborts the loop. -/
theorem c1_tool_exceptions_never_escape_loop (st : AgentState) (umsg : String)
    (script : Nat → AStep) (now : DateTime) (e : ApiError)
    (h : (processWithAnthropic st umsg script now).err = some e) :
    ∃ j, script j = AStep.fail e := by
  have h2 : (anthropicTurns
      ⟨now, st.user_email, st.current_order_id,
        get_system_prompt st.user_email st.user_name st.current_order_id⟩ script st.max_turns
      ⟨st.conversation_history ++ [⟨"user", .text umsg⟩], st.db, st.tools_used, 0, [], none⟩).err
      = some e := h
  rcases anthropicTurns_err_src _ script st.max_turns _ e h2 with h3 | h3
  · exact absurd h3 (by simp)
  · exact h3

/-- Claim C1 counterexample: `execute_tool("create_support_ticket", ...)`
with a well-formed request whose `priority` is `"asap"` lets the
handler's `TicketPriority` `ValueError` propagate to its caller instead
of returning a ToolResult. -/
theorem c1_counterexample :
    execute_tool "create_support_ticket" c1Args demoDB demoNow =
      .error (PyError.valueError "\x27asap\x27 is not a valid TicketPriority") := by
  rfl

/-- Witness for C1 at a concrete provider script that fails on its first
call. -/
theorem c1_witness : ∃ j, c1FailScript j = AStep.fail rateErr :=
  c1_tool_exceptions_never_escape_loop freshState "hi" c1FailScript demoNow rateErr (by decide)

/-! ## Call-count and frame lemmas -/

/-- The Anthropic loop adds at most `fuel` provider calls. -/
theorem anthropicTurns_calls_le (ctx : LoopCtx) (script : Nat → AStep) :
    ∀ (fuel : Nat) (s : ARun), (anthropicTurns ctx script fuel s).calls ≤ s.calls + fuel := by
  intro fuel
  induction fuel with
  | zero => intro s; simp [anthropicTurns]
  | succ n ih =>
    intro s
    simp only [anthropicTurns]
    cases hs : script s.calls with
    | fail e =>
      simp
    | reply blocks =>
      simp only
      split
      · simp
      · refine le_trans (ih _) ?_
        simp
        omega

/-- The OpenAI loop adds at most `fuel` provider calls. -/
theorem openaiTurns_calls_le (ctx : LoopCtx) (script : Nat → OStep) :
    ∀ (fuel : Nat) (s : ORun), (openaiTurns ctx script fuel s).calls ≤ s.calls + fuel := by
  intro fuel
  induction fuel with
  | zero => intro s; simp [openaiTurns]
  | succ n ih =>
    intro s
    simp only [openaiTurns]
    cases hs : script s.calls with
    | fail e =>
      simp
    | reply content tcs =>
      simp only
      split
      · simp
      · refine le_trans (ih _) ?_
        simp
        omega

/-- One Anthropic invocation makes at most `max_turns` provider calls. -/
theorem processWithAnthropic_calls_le (st : AgentState) (umsg : String)
    (script : Nat → AStep) (now : DateTime) :
    (processWithAnthropic st umsg script now).calls ≤ st.max_turns := by
  have h2 : (processWithAnthropic st umsg script now).calls =
      (anthropicTurns
        ⟨now, st.user_email, st.current_order_id,
          get_system_prompt st.user_email st.user_name st.current_order_id⟩ script st.max_turns
        ⟨st.conversation_history ++ [⟨"user", .text umsg⟩], st.db, st.tools_used, 0, [], none⟩).calls := rfl
  rw [h2]
  have h := anthropicTurns_calls_le
    ⟨now, st.user_email, st.current_order_id,
      get_system_prompt st.user_email st.user_name st.current_order_id⟩ script st.max_turns
    ⟨st.conversation_history ++ [⟨"user", .text umsg⟩], st.db, st.tools_used, 0, [], none⟩
  simpa using h

/-- One OpenAI invocation makes at most `max_turns` provider calls. -/
theorem processWithOpenai_calls_le (st : AgentState) (umsg : String)
    (script : Nat → OStep) (now : DateTime) :
    (processWithOpenai st umsg script now).calls ≤ st.max_turns := by
  have h2 : (processWithOpenai st umsg script now).calls =
      (openaiTurns
        ⟨now, st.user_email, st.current_order_id,
          get_system_prompt st.user_email st.user_name st.current_order_id⟩ script st.max_turns
        ⟨(match st.openai_messages with
            | [] => [OMsg.system (get_system_prompt st.user_email st.user_name st.current_order_id)]
            | _ :: rest => OMsg.system (get_system_prompt st.user_email st.user_name st.current_order_id) :: rest)
          ++ [OMsg.user umsg], st.db, st.tools_used, 0, [], none⟩).calls := rfl
  rw [h2]
  have h := openaiTurns_calls_le
    ⟨now, st.user_email, st.current_order_id,
      get_system_prompt st.user_email st.user_name st.current_order_id⟩ script st.max_turns
    ⟨(match st.openai_messages with
        | [] => [OMsg.system (get_system_prompt st.user_email st.user_name st.current_order_id)]
        | _ :: rest => OMsg.system (get_system_prompt st.user_email st.user_name st.current_order_id) :: rest)
      ++ [OMsg.user umsg], st.db, st.tools_used, 0, [], none⟩
  simpa using h

/-- Shape of the OpenAI arm's result: no Anthropic calls or prompts, no
provider switch, a bounded OpenAI call count, and untouched session
fields apart from the OpenAI conversation state. -/
theorem openaiBranch_spec (st : AgentState) (m : String) (os : Nat → OStep) (now : DateTime) :
    (openaiBranch st m os now).aCalls = 0 ∧
    (openaiBranch st m os now).switches = [] ∧
    (openaiBranch st m os now).aPrompts = [] ∧
    (openaiBranch st m os now).oCalls ≤ st.max_turns ∧
    (openaiBranch st m os now).st.active_provider = st.active_provider ∧
    (openaiBranch st m os now).st.user_email = st.user_email ∧
    (openaiBranch st m os now).st.user_name = st.user_name ∧
    (openaiBranch st m os now).st.current_order_id = st.current_order_id ∧
    (openaiBranch st m os now).st.max_turns = st.max_turns := by
  unfold openaiBranch
  split
  · dsimp only
    split
    · exact ⟨rfl, rfl, rfl, processWithOpenai_calls_le st m os now, rfl, rfl, rfl, rfl, rfl⟩
    · exact ⟨rfl, rfl, rfl, processWithOpenai_calls_le st m os now, rfl, rfl, rfl, rfl, rfl⟩
  · exact ⟨rfl, rfl, rfl, Nat.zero_le _, rfl, rfl, rfl, rfl, rfl⟩

/-- `observeUserEmail` only ever changes the `user_email` field. -/
theorem observeUserEmail_eq (st : AgentState) (em : Option String) :
    ∃ e, observeUserEmail st em = { st with user_email := e } := by
  unfold observeUserEmail
  cases em with
  | none => exact ⟨st.user_email, rfl⟩
  | some e =>
    by_cases he : e ≠ ""
    · exact ⟨some e, by simp [he]⟩
    · exact ⟨st.user_email, by simp [he]⟩

/-- `observeOrderId` only ever changes the `current_order_id` field. -/
theorem observeOrderId_eq (st : AgentState) (m : String) :
    ∃ o, observeOrderId st m = { st with current_order_id := o } := by
  cases hx : _extract_order_id m with
  | some oid => exact ⟨some oid, by unfold observeOrderId; rw [hx]⟩
  | none => exact ⟨st.current_order_id, by unfold observeOrderId; rw [hx]⟩

/-- Provider-switch behaviour of the provider-selection body: either no
switch happens and the active provider is untouched, or the state came in
on Anthropic and exactly one Anthropic-to-OpenAI switch is recorded. -/
theorem core_provider_switch (st : AgentState) (m : String) (ascript : Nat → AStep)
    (oscript : Nat → OStep) (now : DateTime) :
    ((process_message_core st m ascript oscript now).st.active_provider = st.active_provider ∧
      (process_message_core st m ascript oscript now).switches = []) ∨
    (st.active_provider = Provider.anthropic ∧
      (process_message_core st m ascript oscript now).st.active_provider = Provider.openai ∧
      (process_message_core st m ascript oscript now).switches =
        [(Provider.anthropic, Provider.openai)]) := by
  simp only [process_message_core]
  split
  case isTrue hcond =>
    split
    · exact Or.inl ⟨rfl, rfl⟩
    · split
      · refine Or.inr ⟨?_, ?_, ?_⟩
        · have h2 := (Bool.and_eq_true _ _ ▸ hcond).2
          cases hb : st.active_provider
          · rfl
          · rw [hb] at h2
            exact absurd h2 (by decide)
        · exact (openaiBranch_spec
            { st with active_provider := Provider.openai,
                      conversation_history := popTrailingUser
                        (processWithAnthropic st m ascript now).history,
                      db := (processWithAnthropic st m ascript now).db,
                      tools_used := (processWithAnthropic st m ascript now).tools_used }
            m oscript now).2.2.2.2.1
        · have h4 := (openaiBranch_spec
            { st with active_provider := Provider.openai,
                      conversation_history := popTrailingUser
                        (processWithAnthropic st m ascript now).history,
                      db := (processWithAnthropic st m ascript now).db,
                      tools_used := (processWithAnthropic st m ascript now).tools_used }
            m oscript now).2.1
          simp only [h4]
      · exact Or.inl ⟨rfl, rfl⟩
  case isFalse hcond =>
    exact Or.inl ⟨(openaiBranch_spec st m oscript now).2.2.2.2.1,
      (openaiBranch_spec st m oscript now).2.1⟩

/-! ## Claim C3 -/

/-- Claim C3: within one `process_message` invocation the session's
active provider changes at most once, and any change is the one-way
Anthropic-to-OpenAI fallback; a session already on OpenAI never switches
back. -/
theorem c3_provider_switches_at_most_once (st0 : AgentState) (umsg : String)
    (em : Option String) (ascript : Nat → AStep) (oscript : Nat → OStep) (now : DateTime) :
    ((process_message st0 umsg em ascript oscript now).st.active_provider = st0.active_provider ∧
      (process_message st0 umsg em ascript oscript now).switches = []) ∨
    (st0.active_provider = Provider.anthropic ∧
      (process_message st0 umsg em ascript oscript now).st.active_provider = Provider.openai ∧
      (process_message st0 umsg em ascript oscript now).switches =
        [(Provider.anthropic, Provider.openai)]) := by
  simp only [process_message]
  obtain ⟨e1, he1⟩ := observeUserEmail_eq { st0 with turn_count := st0.turn_count + 1 } em
  rw [he1]
  obtain ⟨o1, ho1⟩ := observeOrderId_eq
    { { st0 with turn_count := st0.turn_count + 1 } with user_email := e1 } umsg
  rw [ho1]
  rcases core_provider_switch
    { { { st0 with turn_count := st0.turn_count + 1 } with user_email := e1 }
      with current_order_id := o1 } umsg ascript oscript now with ⟨h1, h2⟩ | ⟨h1, h2, h3⟩
  · exact Or.inl ⟨h1, h2⟩
  · exact Or.inr ⟨h1, h2, h3⟩

/-! ## Claim C2 -/

/-- Per-arm call bounds of the provider-selection body. -/
theorem core_calls_le (st : AgentState) (m : String) (ascript : Nat → AStep)
    (oscript : Nat → OStep) (now : DateTime) :
    (process_message_core st m ascript oscript now).aCalls ≤ st.max_turns ∧
    (process_message_core st m ascript oscript now).oCalls ≤ st.max_turns := by
  simp only [process_message_core]
  split
  · split
    · exact ⟨processWithAnthropic_calls_le st m ascript now, Nat.zero_le _⟩
    · split
      · exact ⟨processWithAnthropic_calls_le st m ascript now,
          (openaiBranch_spec
            { st with active_provider := Provider.openai,
                      conversation_history := popTrailingUser
                        (processWithAnthropic st m ascript now).history,
                      db := (processWithAnthropic st m ascript now).db,
                      tools_used := (processWithAnthropic st m ascript now).tools_used }
            m oscript now).2.2.2.1⟩
      · exact ⟨processWithAnthropic_calls_le st m ascript now, Nat.zero_le _⟩
  · refine ⟨?_, (openaiBranch_spec st m oscript now).2.2.2.1⟩
    have h1 := (openaiBranch_spec st m oscript now).1
    rw [h1]
    exact Nat.zero_le _

/-- Claim C2 (amended): each provider's tool-call loop within one
`process_message` invocation makes at most `max_turns` provider calls and
stops after the tenth call even when tool calls are still pending, with
no crash; but across the one-shot fallback the whole invocation can make
up to `2 * max_turns` provider calls (the counterexample reaches 11 with
`max_turns = 10`). -/
theorem c2_provider_calls_bounded_per_arm (st0 : AgentState) (umsg : String)
    (em : Option String) (ascript : Nat → AStep) (oscript : Nat → OStep) (now : DateTime) :
    (process_message st0 umsg em ascript oscript now).aCalls ≤ st0.max_turns ∧
    (process_message st0 umsg em ascript oscript now).oCalls ≤ st0.max_turns ∧
    (process_message st0 umsg em ascript oscript now).aCalls +
      (process_message st0 umsg em ascript oscript now).oCalls ≤ 2 * st0.max_turns := by
  simp only [process_message]
  obtain ⟨e1, he1⟩ := observeUserEmail_eq { st0 with turn_count := st0.turn_count + 1 } em
  rw [he1]
  obtain ⟨o1, ho1⟩ := observeOrderId_eq
    { { st0 with turn_count := st0.turn_count + 1 } with user_email := e1 } umsg
  rw [ho1]
  have h := core_calls_le
    { { { st0 with turn_count := st0.turn_count + 1 } with user_email := e1 }
      with current_order_id := o1 } umsg ascript oscript now
  refine ⟨h.1, h.2, ?_⟩
  have hx : 2 * st0.max_turns = st0.max_turns + st0.max_turns := by omega
  rw [hx]
  exact Nat.add_le_add h.1 h.2

/-! ## Claim C5 -/

/-- `find?` on a cons, stated as an `if`. -/
theorem find?_cons_eq {α : Type} (p : α → Bool) (x : α) (xs : List α) :
    List.find? p (x :: xs) = if p x then some x else List.find? p xs := by
  by_cases h : p x = true
  · rw [if_pos h]
    exact List.find?_cons_of_pos _ h
  · rw [if_neg h]
    exact List.find?_cons_of_neg _ (by simpa using h)

/-- Looking up a key other than the one being assigned is unaffected by
the assignment (replacement arm). -/
theorem Args.get_map_replace (a : Args) (k : String) (v : PyVal) (k2 : String)
    (hne : k2 ≠ k) :
    Args.get (a.map (fun p => if p.1 == k then (k, v) else p)) k2 = a.get k2 := by
  have hkk2 : (k == k2) = false := by simpa using (Ne.symm hne)
  induction a with
  | nil => rfl
  | cons p rest ih =>
    unfold Args.get
    rw [List.map_cons, find?_cons_eq, find?_cons_eq]
    by_cases hp : (p.1 == k) = true
    · have hp1 : p.1 = k := by simpa using hp
      rw [if_pos hp]
      rw [if_neg (by simp [hkk2])]
      rw [if_neg (by simp [hp1, hkk2])]
      exact ih
    · rw [if_neg hp]
      by_cases hq : (p.1 == k2) = true
      · rw [if_pos hq, if_pos hq]
      · rw [if_neg hq, if_neg hq]
        exact ih

/-- Looking up a key other than the one being assigned is unaffected by
the assignment (append arm). -/
theorem Args.get_append_single (a : Args) (k : String) (v : PyVal) (k2 : String)
    (hne : k2 ≠ k) :
    Args.get (a ++ [(k, v)]) k2 = a.get k2 := by
  have hkk2 : (k == k2) = false := by simpa using (Ne.symm hne)
  induction a with
  | nil =>
    unfold Args.get
    rw [List.nil_append, find?_cons_eq]
    rw [if_neg (by simp [hkk2])]
  | cons p rest ih =>
    unfold Args.get
    rw [List.cons_append, find?_cons_eq, find?_cons_eq]
    by_cases hq : (p.1 == k2) = true
    · rw [if_pos hq, if_pos hq]
    · rw [if_neg hq, if_neg hq]
      exact ih

/-- `d[k] = v` leaves every other key's lookup unchanged. -/
theorem Args.get_set_ne (a : Args) (k : String) (v : PyVal) (k2 : String)
    (hne : k2 ≠ k) : (a.set k v).get k2 = a.get k2 := by
  unfold Args.set
  split
  · exact Args.get_map_replace a k v k2 hne
  · exact Args.get_append_single a k v k2 hne

/-- Truthiness of a lookup depends only on the lookup. -/
theorem truthyGet_congr (a b : Args) (k : String) (h : a.get k = b.get k) :
    truthyGet a k = truthyGet b k := by
  unfold truthyGet
  rw [h]

/-- Order-context injection leaves every key other than `order_id`
unchanged. -/
theorem inject_order_get_ne (coid : Option String) (tool : String) (args : Args)
    (k : String) (h : k ≠ "order_id") :
    (_inject_order_context coid tool args).get k = args.get k := by
  unfold _inject_order_context
  split
  · split
    · exact Args.get_set_ne args "order_id" (.vstr (coid.getD "")) k h
    · rfl
  · rfl

/-- Order-context injection does nothing when `order_id` is already
truthy. -/
theorem inject_order_eq_of_truthy (coid : Option String) (tool : String) (args : Args)
    (h : truthyGet args "order_id" = true) :
    _inject_order_context coid tool args = args := by
  unfold _inject_order_context
  split
  · split
    · next hc => exact absurd h hc.1
    · rfl
  · rfl

/-- Email injection leaves every key other than `email` unchanged. -/
theorem inject_email_get_ne (ue : Option String) (tool : String) (args : Args)
    (k : String) (h : k ≠ "email") :
    (injectEmailContext ue tool args).get k = args.get k := by
  unfold injectEmailContext
  split
  · rfl
  · next e =>
    split
    · rfl
    · split
      · split
        · exact Args.get_set_ne args "email" (.vstr e) k h
        · rfl
      · split
        · exact Args.get_set_ne args "email" (.vstr e) k h
        · rfl

/-- Email injection does nothing when `email` is already truthy. -/
theorem inject_email_eq_of_truthy (ue : Option String) (tool : String) (args : Args)
    (h : truthyGet args "email" = true) :
    injectEmailContext ue tool args = args := by
  unfold injectEmailContext
  split
  · rfl
  · next e =>
    split
    · rfl
    · split
      · rfl
      · split
        · next hc =>
          rw [Bool.and_eq_true] at hc
          exact absurd h (of_decide_eq_true hc.2)
        · rfl

/-- Claim C5: enrichment (order-id injection then email injection before
tool dispatch) fills a field only when it is absent or empty in the
supplied arguments: a key already present with a truthy value is never
overwritten, and keys other than `order_id` and `email` are never touched
at all. -/
theorem c5_enrichment_never_overwrites (ue coid : Option String) (tool : String)
    (args : Args) (k : String) :
    (truthyGet args k = true → (enrich ue coid tool args).get k = args.get k) ∧
    (k ≠ "order_id" → k ≠ "email" → (enrich ue coid tool args).get k = args.get k) := by
  constructor
  · intro ht
    by_cases hk1 : k = "order_id"
    · subst hk1
      have ha1 : _inject_order_context coid tool args = args :=
        inject_order_eq_of_truthy coid tool args ht
      unfold enrich
      rw [ha1]
      exact inject_email_get_ne ue tool args "order_id" (by decide)
    · by_cases hk2 : k = "email"
      · subst hk2
        have hg : (_inject_order_context coid tool args).get "email" = args.get "email" :=
          inject_order_get_ne coid tool args "email" (by decide)
        have ht2 : truthyGet (_inject_order_context coid tool args) "email" = true := by
          rw [truthyGet_congr _ args "email" hg]
          exact ht
        unfold enrich
        rw [inject_email_eq_of_truthy ue tool _ ht2, hg]
      · unfold enrich
        rw [inject_email_get_ne ue tool _ k hk2, inject_order_get_ne coid tool args k hk1]
  · intro h1 h2
    unfold enrich
    rw [inject_email_get_ne ue tool _ k h2, inject_order_get_ne coid tool args k h1]

/-- Model-supplied arguments carrying a non-empty `order_id`. -/
def c5Args : Args := [("order_id", .vstr "ORD-9999-11111")]

/-- Witness for C5: an order id supplied by the model survives enrichment
even though the session knows a different current order. -/
theorem c5_witness :
    truthyGet c5Args "order_id" = true ∧
    (enrich (some "alice@example.com") (some "ORD-2024-00001") "get_order_status" c5Args).get
        "order_id" = c5Args.get "order_id" :=
  ⟨by decide,
    (c5_enrichment_never_overwrites (some "alice@example.com") (some "ORD-2024-00001")
      "get_order_status" c5Args "order_id").1 (by decide)⟩

/-! ## Claim C10 -/

/-- `scalar_one_or_none` raises `MultipleResultsFound` whenever the row
set has at least two rows. -/
theorem scalarOneOrNone_multi {α : Type} (l : List α) (h : 2 ≤ l.length) :
    scalarOneOrNone l = .error PyError.multipleResultsFound := by
  cases l with
  | nil => simp at h
  | cons a rest =>
    cases rest with
    | nil => simp at h
    | cons b t => rfl

/-- Claim C10: when `execute_tool("get_order_status", args, db)` is given
an email but no (truthy) `order_id`, the order query carries no filter at
all — the row set is the whole `orders` table, unrestricted by the email —
and as soon as the database holds at least two orders the lookup raises
`MultipleResultsFound` out of `execute_tool` instead of returning a
structured payload for that customer's order. -/
theorem c10_email_only_lookup_unfiltered (args : Args) (db : DB) (now : DateTime)
    (hemail : truthyGet args "email" = true)
    (hoid : truthyGet args "order_id" = false) :
    orderStatusQuery (args.get "order_id") db = db.orders ∧
    (2 ≤ db.orders.length →
      execute_tool "get_order_status" args db now = .error PyError.multipleResultsFound) := by
  have hq : orderStatusQuery (args.get "order_id") db = db.orders := by
    unfold orderStatusQuery
    unfold truthyGet at hoid
    cases hx : args.get "order_id" with
    | none => rfl
    | some v =>
      rw [hx] at hoid
      have hv : v.truthy = false := hoid
      simp only
      rw [if_neg (by simp [hv])]
  refine ⟨hq, ?_⟩
  intro hlen
  have hemail2 : optValTruthy (args.get "email") = true := hemail
  have hcond : ¬ (¬ optValTruthy (args.get "order_id") = true ∧
      ¬ optValTruthy (args.get "email") = true) := fun hc => hc.2 hemail2
  show (_get_order_status args db).map (fun j => (j, db)) = .error PyError.multipleResultsFound
  simp only [_get_order_status, if_neg hcond, hq, scalarOneOrNone_multi db.orders hlen]
  rfl

/-- Witness for C10 at the demo database holding two orders of the same
customer: the email-only lookup raises instead of answering. -/
theorem c10_witness :
    truthyGet c10Args "email" = true ∧ 2 ≤ demoDB.orders.length ∧
    execute_tool "get_order_status" c10Args demoDB demoNow
      = .error PyError.multipleResultsFound :=
  ⟨by decide, by decide,
    (c10_email_only_lookup_unfiltered c10Args demoDB demoNow (by decide) (by decide)).2
      (by decide)⟩

/-! ## Claim C6 -/

/-- A sequence with the order-token shape has exactly 14 characters. -/
theorem orderShape_length (m : List Char) (h : orderShape m = true) : m.length = 14 := by
  unfold orderShape at h
  split at h
  · rfl
  · exact absurd h (by simp)

/-- A successful scan returns a shaped token that occurs in the text. -/
theorem searchOrder_some (cs : List Char) :
    ∀ m, searchOrder cs = some m →
      orderShape m = true ∧ ∃ s t, cs = s ++ m ++ t := by
  induction cs with
  | nil => intro m h; exact absurd h (by simp [searchOrder])
  | cons c rest ih =>
    intro m h
    unfold searchOrder at h
    cases hm : matchOrderAt (c :: rest) with
    | some m2 =>
      rw [hm] at h
      injection h with h2
      subst h2
      unfold matchOrderAt at hm
      by_cases hsh : orderShape ((c :: rest).take 14) = true
      · rw [if_pos hsh] at hm
        injection hm with hm2
        subst hm2
        refine ⟨hsh, [], (c :: rest).drop 14, ?_⟩
        rw [List.nil_append, List.take_append_drop]
      · rw [if_neg hsh] at hm
        exact absurd hm (by simp)
    | none =>
      rw [hm] at h
      obtain ⟨hsh, s, t, heq⟩ := ih m h
      exact ⟨hsh, c :: s, t, by rw [List.cons_append, List.cons_append, ← heq]⟩

/-- The scan cannot miss: a shaped token occurring anywhere in the text
makes `searchOrder` succeed. -/
theorem searchOrder_finds (tok : List Char) (hsh : orderShape tok = true) :
    ∀ s t, searchOrder (s ++ tok ++ t) ≠ none := by
  have hlen : tok.length = 14 := orderShape_length tok hsh
  intro s
  induction s with
  | nil =>
    intro t
    cases htok : tok with
    | nil => rw [htok] at hlen; exact absurd hlen (by simp)
    | cons c cr =>
      subst htok
      have htake : ((c :: cr) ++ t).take 14 = c :: cr := by
        rw [← hlen]
        exact List.take_left (c :: cr) t
      rw [List.nil_append, List.cons_append]
      unfold searchOrder
      unfold matchOrderAt
      rw [show (c :: (cr ++ t)) = (c :: cr) ++ t from rfl, htake, if_pos hsh]
      simp
  | cons c s ih =>
    intro t
    show searchOrder (c :: (s ++ tok ++ t)) ≠ none
    unfold searchOrder
    cases hm : matchOrderAt (c :: (s ++ tok ++ t)) with
    | some m2 => simp
    | none => exact ih t

/-- The provider-selection body never touches the session's context
fields: the current order id, user email and user name survive it. -/
theorem core_preserves_context (st : AgentState) (m : String) (ascript : Nat → AStep)
    (oscript : Nat → OStep) (now : DateTime) :
    (process_message_core st m ascript oscript now).st.current_order_id = st.current_order_id ∧
    (process_message_core st m ascript oscript now).st.user_email = st.user_email ∧
    (process_message_core st m ascript oscript now).st.user_name = st.user_name := by
  simp only [process_message_core]
  split
  · split
    · exact ⟨rfl, rfl, rfl⟩
    · split
      · refine ⟨?_, ?_, ?_⟩
        · exact (openaiBranch_spec
            { st with active_provider := Provider.openai,
                      conversation_history := popTrailingUser
                        (processWithAnthropic st m ascript now).history,
                      db := (processWithAnthropic st m ascript now).db,
                      tools_used := (processWithAnthropic st m ascript now).tools_used }
            m oscript now).2.2.2.2.2.2.2.1
        · exact (openaiBranch_spec
            { st with active_provider := Provider.openai,
                      conversation_history := popTrailingUser
                        (processWithAnthropic st m ascript now).history,
                      db := (processWithAnthropic st m ascript now).db,
                      tools_used := (processWithAnthropic st m ascript now).tools_used }
            m oscript now).2.2.2.2.2.1
        · exact (openaiBranch_spec
            { st with active_provider := Provider.openai,
                      conversation_history := popTrailingUser
                        (processWithAnthropic st m ascript now).history,
                      db := (processWithAnthropic st m ascript now).db,
                      tools_used := (processWithAnthropic st m ascript now).tools_used }
            m oscript now).2.2.2.2.2.2.1
      · exact ⟨rfl, rfl, rfl⟩
  · exact ⟨(openaiBranch_spec st m oscript now).2.2.2.2.2.2.2.1,
      (openaiBranch_spec st m oscript now).2.2.2.2.2.1,
      (openaiBranch_spec st m oscript now).2.2.2.2.2.2.1⟩

/-- Claim C6: when the user message contains a token matching the order-id
pattern (`ORD-` then 4 digits, a dash, 5 digits, case-insensitively),
processing the message sets the session's current order to the found token
uppercased — and the token the scan found really is a shaped token
occurring in the text; when the text has no matching token at any
position, the current order is left unchanged. -/
theorem c6_order_extraction_roundtrip (st0 : AgentState) (umsg : String)
    (em : Option String) (ascript : Nat → AStep) (oscript : Nat → OStep) (now : DateTime) :
    (∀ m, searchOrder umsg.toList = some m →
      (process_message st0 umsg em ascript oscript now).st.current_order_id
          = some (String.mk (m.map Char.toUpper)) ∧
      containsToken umsg.toList m ∧ orderShape m = true) ∧
    (searchOrder umsg.toList = none →
      (process_message st0 umsg em ascript oscript now).st.current_order_id
          = st0.current_order_id ∧
      ∀ tok, orderShape tok = true → ¬ containsToken umsg.toList tok) := by
  simp only [process_message]
  obtain ⟨e1, he1⟩ := observeUserEmail_eq { st0 with turn_count := st0.turn_count + 1 } em
  rw [he1]
  constructor
  · intro m hm
    have hx : _extract_order_id umsg = some (String.mk (m.map Char.toUpper)) := by
      unfold _extract_order_id
      rw [hm]
      rfl
    have ho : observeOrderId
        { { st0 with turn_count := st0.turn_count + 1 } with user_email := e1 } umsg =
        { { { st0 with turn_count := st0.turn_count + 1 } with user_email := e1 }
          with current_order_id := some (String.mk (m.map Char.toUpper)) } := by
      unfold observeOrderId
      rw [hx]
    rw [ho]
    obtain ⟨hsh, s, t, heq⟩ := searchOrder_some umsg.toList m hm
    exact ⟨(core_preserves_context _ umsg ascript oscript now).1, ⟨s, t, heq⟩, hsh⟩
  · intro hnone
    have hx : _extract_order_id umsg = none := by
      unfold _extract_order_id
      rw [hnone]
      rfl
    have ho : observeOrderId
        { { st0 with turn_count := st0.turn_count + 1 } with user_email := e1 } umsg =
        { { st0 with turn_count := st0.turn_count + 1 } with user_email := e1 } := by
      unfold observeOrderId
      rw [hx]
    rw [ho]
    refine ⟨(core_preserves_context _ umsg ascript oscript now).1, ?_⟩
    intro tok hsh hcontains
    obtain ⟨s, t, heq⟩ := hcontains
    exact searchOrder_finds tok hsh s t (by rw [← heq]; exact hnone)

/-- Witness for C6 at a concrete message carrying a lowercase order id. -/
theorem c6_witness :
    (process_message freshState "please check ord-2024-00001 thanks" none c4Script2
        idleOScript demoNow).st.current_order_id = some "ORD-2024-00001" := by
  have h := ((c6_order_extraction_roundtrip freshState "please check ord-2024-00001 thanks"
    none c4Script2 idleOScript demoNow).1 ("ord-2024-00001".toList) (by decide)).1
  exact h.trans (by exact congrArg some (by decide))

/-! ## Claim C7 -/

/-- With no database session, the tool-call processing of the Anthropic
loop resolves every requested call to the structured
database-unavailable error payload, keyed by the request's id, and leaves
the (absent) database absent. -/
theorem runToolUses_db_none (now : DateTime) (ue coid : Option String) :
    ∀ (tus : List ToolUse) (tools : List String),
      (runToolUses now ue coid none tools tus).1
        = tus.map (fun tu => (⟨tu.id, dbErrObj⟩ : TRes)) ∧
      (runToolUses now ue coid none tools tus).2.1 = none := by
  intro tus
  induction tus with
  | nil => intro tools; exact ⟨rfl, rfl⟩
  | cons tu rest ih =>
    intro tools
    simp only [runToolUses, runToolUse, List.map_cons]
    exact ⟨by rw [(ih _).1], (ih _).2⟩

/-- With no database session, the OpenAI loop's tool-call processing
appends one database-unavailable `role="tool"` message per non-skipped
call and leaves the database absent. -/
theorem runOToolCalls_db_none (now : DateTime) (ue coid : Option String) :
    ∀ (tcs : List OToolCall) (tools : List String) (msgs : List OMsg),
      (runOToolCalls now ue coid none tools msgs tcs).1
        = msgs ++ (tcs.filter (fun tc => tc.id ≠ "")).map
            (fun tc => OMsg.tool tc.id dbErrObj) ∧
      (runOToolCalls now ue coid none tools msgs tcs).2.1 = none := by
  intro tcs
  induction tcs with
  | nil => intro tools msgs; exact ⟨by simp [runOToolCalls], rfl⟩
  | cons tc rest ih =>
    intro tools msgs
    simp only [runOToolCalls]
    by_cases hid : (tc.id == "") = true
    · rw [if_pos hid]
      have hskip : (decide ¬ (tc.id = "")) = false := by
        simp only [decide_not]
        simp [eq_of_beq hid]
      constructor
      · rw [(ih _ _).1]
        simp only [List.filter]
        rw [hskip]
      · exact (ih _ _).2
    · rw [if_neg hid]
      have hne : tc.id ≠ "" := by
        intro hh
        rw [hh] at hid
        simp at hid
      have hkeep : (decide ¬ (tc.id = "")) = true := by simp [hne]
      constructor
      · rw [(ih _ _).1]
        simp only [List.filter]
        rw [hkeep]
        simp [List.map_cons, List.append_assoc]
      · exact (ih _ _).2

/-- With no database session, the Anthropic turn loop keeps the database
absent and every tool-result message it appends consists of
database-unavailable payloads, one per requested call. -/
theorem anthropicTurns_db_none (ctx : LoopCtx) (script : Nat → AStep) :
    ∀ (fuel : Nat) (s : ARun), s.db = none →
      (anthropicTurns ctx script fuel s).db = none ∧
      ∀ m, m ∈ (anthropicTurns ctx script fuel s).history →
        m ∈ s.history ∨
        ∀ rs, m.content = AContent.results rs →
          ∃ tus : List ToolUse, rs = tus.map (fun tu => (⟨tu.id, dbErrObj⟩ : TRes)) := by
  intro fuel
  induction fuel with
  | zero => intro s hdb; exact ⟨hdb, fun m hm => Or.inl hm⟩
  | succ n ih =>
    intro s hdb
    simp only [anthropicTurns]
    cases hs : script s.calls with
    | fail e => exact ⟨hdb, fun m hm => Or.inl hm⟩
    | reply blocks =>
      simp only
      split
      · refine ⟨hdb, ?_⟩
        intro m hm
        rcases List.mem_append.mp hm with h1 | h1
        · exact Or.inl h1
        · right
          intro rs hrs
          rw [List.mem_singleton.mp h1] at hrs
          exact absurd hrs (by simp)
      · rw [hdb]
        have hrt := runToolUses_db_none ctx.now ctx.user_email ctx.current_order_id
          (toolUsesOf blocks) s.tools_used
        have h1 := ih
          { s with
              calls := s.calls + 1, prompts := s.prompts ++ [ctx.sp],
              history := s.history ++ [⟨"assistant", .blocks blocks⟩] ++
                [⟨"user", .results (runToolUses ctx.now ctx.user_email ctx.current_order_id
                  none s.tools_used (toolUsesOf blocks)).1⟩],
              db := (runToolUses ctx.now ctx.user_email ctx.current_order_id
                none s.tools_used (toolUsesOf blocks)).2.1,
              tools_used := (runToolUses ctx.now ctx.user_email ctx.current_order_id
                none s.tools_used (toolUsesOf blocks)).2.2 }
          hrt.2
        refine ⟨h1.1, ?_⟩
        intro m hm
        rcases h1.2 m hm with h2 | h2
        · rcases List.mem_append.mp h2 with h3 | h3
          · rcases List.mem_append.mp h3 with h4 | h4
            · exact Or.inl h4
            · right
              intro rs hrs
              rw [List.mem_singleton.mp h4] at hrs
              exact absurd hrs (by simp)
          · right
            intro rs hrs
            rw [List.mem_singleton.mp h3] at hrs
            injection hrs with hrs2
            exact ⟨toolUsesOf blocks, by rw [← hrs2, hrt.1]⟩
        · exact Or.inr h2

/-- Claim C7: in a turn with no data-access backend attached, every
pending tool call the model requests is resolved to the structured
`Database session not available` error payload and appended to history as
a tool-result message, without throwing, and the loop continues: in the
Anthropic loop the database stays absent and every appended tool-result
message is exactly the per-call error payloads; in the OpenAI loop each
non-skipped call appends one such `role="tool"` message. -/
theorem c7_no_backend_structured_errors :
    (∀ (ctx : LoopCtx) (script : Nat → AStep) (fuel : Nat) (s : ARun), s.db = none →
      (anthropicTurns ctx script fuel s).db = none ∧
      ∀ m, m ∈ (anthropicTurns ctx script fuel s).history →
        m ∈ s.history ∨
        ∀ rs, m.content = AContent.results rs →
          ∃ tus : List ToolUse, rs = tus.map (fun tu => (⟨tu.id, dbErrObj⟩ : TRes))) ∧
    (∀ (now : DateTime) (ue coid : Option String) (tcs : List OToolCall)
        (tools : List String) (msgs : List OMsg),
      (runOToolCalls now ue coid none tools msgs tcs).1
        = msgs ++ (tcs.filter (fun tc => tc.id ≠ "")).map
            (fun tc => OMsg.tool tc.id dbErrObj) ∧
      (runOToolCalls now ue coid none tools msgs tcs).2.1 = none) :=
  ⟨fun ctx script fuel s => anthropicTurns_db_none ctx script fuel s,
    fun now ue coid tcs tools msgs => runOToolCalls_db_none now ue coid tcs tools msgs⟩

/-- A loop context for the C7 witness run. -/
def c7Ctx : LoopCtx := ⟨demoNow, none, none, "sp"⟩

/-- A provider script requesting one tool call per turn. -/
def c7Script : Nat → AStep := fun _ => .reply [.tool_use "t1" "get_order_status" []]

/-- An initial loop state with no database session. -/
def c7Init : ARun := ⟨[], none, [], 0, [], none⟩

/-- Witness for C7 at a concrete no-database run. -/
theorem c7_witness : (anthropicTurns c7Ctx c7Script 2 c7Init).db = none :=
  (c7_no_backend_structured_errors.1 c7Ctx c7Script 2 c7Init rfl).1

/-! ## Claim C8 -/

/-- Every prompt the Anthropic loop passes to the provider is the loop
context's system prompt, and their count is the call count. -/
theorem anthropicTurns_prompts (ctx : LoopCtx) (script : Nat → AStep) :
    ∀ (fuel : Nat) (s : ARun),
      (∀ p ∈ s.prompts, p = ctx.sp) → s.prompts.length = s.calls →
      (∀ p ∈ (anthropicTurns ctx script fuel s).prompts, p = ctx.sp) ∧
      (anthropicTurns ctx script fuel s).prompts.length
        = (anthropicTurns ctx script fuel s).calls := by
  intro fuel
  induction fuel with
  | zero => intro s h1 h2; exact ⟨h1, h2⟩
  | succ n ih =>
    intro s h1 h2
    have h1b : ∀ p ∈ s.prompts ++ [ctx.sp], p = ctx.sp := by
      intro p hp
      rcases List.mem_append.mp hp with hh | hh
      · exact h1 p hh
      · exact List.mem_singleton.mp hh
    have h2b : (s.prompts ++ [ctx.sp]).length = s.calls + 1 := by
      rw [List.length_append, h2]
      rfl
    simp only [anthropicTurns]
    cases hs : script s.calls with
    | fail e => exact ⟨h1b, h2b⟩
    | reply blocks =>
      simp only
      split
      · exact ⟨h1b, h2b⟩
      · exact ih _ h1b h2b

/-- Every prompt the OpenAI loop passes to the provider is the loop
context's system prompt, and their count is the call count. -/
theorem openaiTurns_prompts (ctx : LoopCtx) (script : Nat → OStep) :
    ∀ (fuel : Nat) (s : ORun),
      (∀ p ∈ s.prompts, p = ctx.sp) → s.prompts.length = s.calls →
      (∀ p ∈ (openaiTurns ctx script fuel s).prompts, p = ctx.sp) ∧
      (openaiTurns ctx script fuel s).prompts.length
        = (openaiTurns ctx script fuel s).calls := by
  intro fuel
  induction fuel with
  | zero => intro s h1 h2; exact ⟨h1, h2⟩
  | succ n ih =>
    intro s h1 h2
    have h1b : ∀ p ∈ s.prompts ++ [ctx.sp], p = ctx.sp := by
      intro p hp
      rcases List.mem_append.mp hp with hh | hh
      · exact h1 p hh
      · exact List.mem_singleton.mp hh
    have h2b : (s.prompts ++ [ctx.sp]).length = s.calls + 1 := by
      rw [List.length_append, h2]
      rfl
    simp only [openaiTurns]
    cases hs : script s.calls with
    | fail e => exact ⟨h1b, h2b⟩
    | reply content tcs =>
      simp only
      split
      · exact ⟨h1b, h2b⟩
      · exact ih _ h1b h2b

/-- Every provider call of one Anthropic invocation carries the system
prompt generated from the invocation's session context. -/
theorem processWithAnthropic_prompts (st : AgentState) (umsg : String)
    (script : Nat → AStep) (now : DateTime) :
    (∀ p ∈ (processWithAnthropic st umsg script now).prompts,
      p = get_system_prompt st.user_email st.user_name st.current_order_id) ∧
    (processWithAnthropic st umsg script now).prompts.length
      = (processWithAnthropic st umsg script now).calls := by
  have h := anthropicTurns_prompts
    ⟨now, st.user_email, st.current_order_id,
      get_system_prompt st.user_email st.user_name st.current_order_id⟩ script st.max_turns
    ⟨st.conversation_history ++ [Msg.mk "user" (AContent.text umsg)], st.db, st.tools_used,
      0, [], none⟩
    (by intro p hp; exact absurd hp (by simp)) rfl
  exact h

/-- Every provider call of one OpenAI invocation carries the system
prompt generated from the invocation's session context. -/
theorem processWithOpenai_prompts (st : AgentState) (umsg : String)
    (script : Nat → OStep) (now : DateTime) :
    (∀ p ∈ (processWithOpenai st umsg script now).prompts,
      p = get_system_prompt st.user_email st.user_name st.current_order_id) ∧
    (processWithOpenai st umsg script now).prompts.length
      = (processWithOpenai st umsg script now).calls := by
  have h := openaiTurns_prompts
    ⟨now, st.user_email, st.current_order_id,
      get_system_prompt st.user_email st.user_name st.current_order_id⟩ script st.max_turns
    ⟨(match st.openai_messages with
        | [] => [OMsg.system (get_system_prompt st.user_email st.user_name st.current_order_id)]
        | _ :: rest =>
          OMsg.system (get_system_prompt st.user_email st.user_name st.current_order_id) :: rest)
      ++ [OMsg.user umsg], st.db, st.tools_used, 0, [], none⟩
    (by intro p hp; exact absurd hp (by simp)) rfl
  exact h

/-- Prompt bookkeeping of the OpenAI arm. -/
theorem openaiBranch_prompts (st : AgentState) (m : String) (os : Nat → OStep)
    (now : DateTime) :
    (∀ p ∈ (openaiBranch st m os now).oPrompts,
      p = get_system_prompt st.user_email st.user_name st.current_order_id) ∧
    (openaiBranch st m os now).oPrompts.length = (openaiBranch st m os now).oCalls := by
  unfold openaiBranch
  split
  · dsimp only
    split
    · exact processWithOpenai_prompts st m os now
    · exact processWithOpenai_prompts st m os now
  · exact ⟨by intro p hp; exact absurd hp (by simp), rfl⟩

/-- Prompt bookkeeping of the provider-selection body. -/
theorem core_prompts (st : AgentState) (m : String) (ascript : Nat → AStep)
    (oscript : Nat → OStep) (now : DateTime) :
    (∀ p ∈ (process_message_core st m ascript oscript now).aPrompts,
      p = get_system_prompt st.user_email st.user_name st.current_order_id) ∧
    (∀ p ∈ (process_message_core st m ascript oscript now).oPrompts,
      p = get_system_prompt st.user_email st.user_name st.current_order_id) ∧
    (process_message_core st m ascript oscript now).aPrompts.length
      = (process_message_core st m ascript oscript now).aCalls ∧
    (process_message_core st m ascript oscript now).oPrompts.length
      = (process_message_core st m ascript oscript now).oCalls := by
  simp only [process_message_core]
  split
  · split
    · exact ⟨(processWithAnthropic_prompts st m ascript now).1,
        by intro p hp; exact absurd hp (by simp),
        (processWithAnthropic_prompts st m ascript now).2, rfl⟩
    · split
      · refine ⟨(processWithAnthropic_prompts st m ascript now).1, ?_,
          (processWithAnthropic_prompts st m ascript now).2, ?_⟩
        · exact (openaiBranch_prompts
            { st with active_provider := Provider.openai,
                      conversation_history := popTrailingUser
                        (processWithAnthropic st m ascript now).history,
                      db := (processWithAnthropic st m ascript now).db,
                      tools_used := (processWithAnthropic st m ascript now).tools_used }
            m oscript now).1
        · exact (openaiBranch_prompts
            { st with active_provider := Provider.openai,
                      conversation_history := popTrailingUser
                        (processWithAnthropic st m ascript now).history,
                      db := (processWithAnthropic st m ascript now).db,
                      tools_used := (processWithAnthropic st m ascript now).tools_used }
            m oscript now).2
      · exact ⟨(processWithAnthropic_prompts st m ascript now).1,
          by intro p hp; exact absurd hp (by simp),
          (processWithAnthropic_prompts st m ascript now).2, rfl⟩
  · refine ⟨?_, (openaiBranch_prompts st m oscript now).1, ?_,
      (openaiBranch_prompts st m oscript now).2⟩
    · intro p hp
      rw [(openaiBranch_spec st m oscript now).2.2.1] at hp
      exact absurd hp (by simp)
    · rw [(openaiBranch_spec st m oscript now).2.2.1, (openaiBranch_spec st m oscript now).1]
      rfl

set_option maxRecDepth 8192 in
/-- Claim C8: every provider call within one `process_message` invocation
— in either loop, including after a fallback — carries a system prompt
equal to the one generated from the session context current at that call
(customer email, name, current order id), so an order id detected from
this very message is reflected in each provider call of the loop; the
session context is invariant across the loop, making the once-per-
invocation prompt equal to a per-iteration regeneration. -/
theorem c8_prompt_reflects_current_context (st0 : AgentState) (umsg : String)
    (em : Option String) (ascript : Nat → AStep) (oscript : Nat → OStep) (now : DateTime) :
    (process_message st0 umsg em ascript oscript now).aPrompts.length
      = (process_message st0 umsg em ascript oscript now).aCalls ∧
    (process_message st0 umsg em ascript oscript now).oPrompts.length
      = (process_message st0 umsg em ascript oscript now).oCalls ∧
    (∀ p ∈ (process_message st0 umsg em ascript oscript now).aPrompts,
      p = get_system_prompt
        (process_message st0 umsg em ascript oscript now).st.user_email
        (process_message st0 umsg em ascript oscript now).st.user_name
        (process_message st0 umsg em ascript oscript now).st.current_order_id) ∧
    (∀ p ∈ (process_message st0 umsg em ascript oscript now).oPrompts,
      p = get_system_prompt
        (process_message st0 umsg em ascript oscript now).st.user_email
        (process_message st0 umsg em ascript oscript now).st.user_name
        (process_message st0 umsg em ascript oscript now).st.current_order_id) := by
  simp only [process_message]
  obtain ⟨e1, he1⟩ := observeUserEmail_eq { st0 with turn_count := st0.turn_count + 1 } em
  rw [he1]
  obtain ⟨o1, ho1⟩ := observeOrderId_eq
    { { st0 with turn_count := st0.turn_count + 1 } with user_email := e1 } umsg
  rw [ho1]
  have hp := core_prompts
    { { { st0 with turn_count := st0.turn_count + 1 } with user_email := e1 }
      with current_order_id := o1 } umsg ascript oscript now
  have hc := core_preserves_context
    { { { st0 with turn_count := st0.turn_count + 1 } with user_email := e1 }
      with current_order_id := o1 } umsg ascript oscript now
  refine ⟨hp.2.2.1, hp.2.2.2, ?_, ?_⟩
  · intro p hmem
    rw [hc.1, hc.2.1, hc.2.2]
    exact hp.1 p hmem
  · intro p hmem
    rw [hc.1, hc.2.1, hc.2.2]
    exact hp.2.1 p hmem

set_option maxRecDepth 65536 in
/-- Witness for C8 at a concrete single-call run with empty context. -/
theorem c8_witness :
    get_system_prompt none none none
      = get_system_prompt
        (process_message freshState "hey" none c4Script2 idleOScript demoNow).st.user_email
        (process_message freshState "hey" none c4Script2 idleOScript demoNow).st.user_name
        (process_message freshState "hey" none c4Script2 idleOScript
          demoNow).st.current_order_id :=
  (c8_prompt_reflects_current_context freshState "hey" none c4Script2 idleOScript
    demoNow).2.2.1 (get_system_prompt none none none) (by decide)

/-- Claim C2 counterexample: with `max_turns = 10`, a first Anthropic
call that raises plus a fallback OpenAI run whose model requests tool
calls on every turn gives 11 provider calls in one `process_message`
invocation — more than `max_turns`. -/
theorem c2_counterexample :
    (process_message freshState "hi" none c2AScript c2OScript demoNow).aCalls +
      (process_message freshState "hi" none c2AScript c2OScript demoNow).oCalls = 11 ∧
    freshState.max_turns = 10 ∧
    ¬ ((process_message freshState "hi" none c2AScript c2OScript demoNow).aCalls +
        (process_message freshState "hi" none c2AScript c2OScript demoNow).oCalls
        ≤ freshState.max_turns) :=
  ⟨by decide, rfl, by decide⟩

end Bookly
